import Mathlib

/-! # AWS SDK for Go examples: operation wrappers and test lifecycle helpers

A shallow embedding of

* `go/sqs/DeadLetterQueue/DeadLetterQueue.go` and its test,
* `go/sqs/GetQueueURL/GetQueueURL.go` and the helper functions of its test,
* `go/cloudwatch/CreateCustomMetric/CreateCustomMetric.go`,
* `go/cloudwatch/DeleteAlarm/DeleteAlarm_test.go`.

Go strings are modelled by `String`; every separator the code splits on is an
ASCII character, so splitting bytes and splitting characters agree.  A Go
pointer `*string` is an `Option String` (`nil` is `none`), a Go `error` is an
`Option Error` (`nil` is `none`).  The SDK client methods, the file system, the
JSON codec, session creation and the UUID generator are the environment: they
are fields of `Env`, arbitrary functions the theorems quantify over.
-/

/-! ## Go runtime -/

/-- A Go `error` value, identified by its text. -/
structure Error where
  msg : String
deriving DecidableEq, Repr

/-- The function `errors.New`. -/
def errors.New (text : String) : Error := ⟨text⟩

/-- A `float64`, carried as its IEEE 754 bit pattern; the code only passes such values on. -/
structure Float64 where
  bits : Nat
deriving DecidableEq, Repr

/-- Go `strings.Split(s, sep)` on character lists, for a separator of one character:
the segments of `s` between the occurrences of `sep`, in order (`n + 1` segments for
`n` occurrences, so one empty segment for the empty string). -/
def splitChars (sep : Char) : List Char → List (List Char)
  | [] => [[]]
  | c :: cs =>
    if c = sep then [] :: splitChars sep cs
    else
      match splitChars sep cs with
      | [] => [[c]]
      | seg :: segs => (c :: seg) :: segs

/-- Go `strings.Split(s, sep)` for a separator of one character. -/
def strings.Split (s : String) (sep : Char) : List String :=
  (splitChars sep s.data).map String.mk

/-! ## Configuration records of the three test packages -/

namespace DeadLetterQueue

/-- The `Config` struct of `DeadLetterQueue_test.go`. -/
structure Config where
  QueueName : String := ""
  DlQueueName : String := ""
deriving DecidableEq, Repr

end DeadLetterQueue

namespace GetQueueURL

/-- The `Config` struct of `GetQueueURL_test.go`. -/
structure Config where
  QueueName : String := ""
deriving DecidableEq, Repr

end GetQueueURL

namespace DeleteAlarm

/-- The `config` struct of `DeleteAlarm_test.go`. -/
structure Config where
  InstanceName : String := ""
  InstanceID : String := ""
  AlarmName : String := ""
deriving DecidableEq, Repr

end DeleteAlarm

/-! ## SDK request and response values

Only the fields the code sets are kept; every other field of an SDK input is `nil`. A Go map
literal is the list of its entries in source order. -/

/-- The function `aws.String`: a pointer to the given string. -/
def awsString (v : String) : Option String := some v

/-- The function `aws.StringValue`: the pointed-to string, or the empty string for `nil`. -/
def awsStringValue (v : Option String) : String := v.getD ""

/-- The function `aws.Float64`. -/
def awsFloat64 (v : Float64) : Option Float64 := some v

/-- The function `aws.Int64`. -/
def awsInt64 (v : Int) : Option Int := some v

/-- The function `aws.Bool`. -/
def awsBool (v : Bool) : Option Bool := some v

/-- The part of a `session.Session` the code reads: `sess.Config.Region`. -/
structure Session where
  Region : Option String
deriving DecidableEq, Repr

namespace sqs

def QueueAttributeNameRedrivePolicy : String := "RedrivePolicy"

structure CreateQueueInput where
  QueueName : Option String
  Attributes : List (String × Option String)
deriving DecidableEq, Repr

structure CreateQueueOutput where
  QueueUrl : Option String
deriving DecidableEq, Repr

structure DeleteQueueInput where
  QueueUrl : Option String
deriving DecidableEq, Repr

structure SetQueueAttributesInput where
  QueueUrl : Option String
  Attributes : List (String × Option String)
deriving DecidableEq, Repr

structure GetQueueUrlInput where
  QueueName : Option String
deriving DecidableEq, Repr

structure GetQueueUrlOutput where
  QueueUrl : Option String
deriving DecidableEq, Repr

end sqs

namespace sts

structure GetCallerIdentityOutput where
  Account : Option String
deriving DecidableEq, Repr

end sts

namespace cloudwatch

def ComparisonOperatorGreaterThanThreshold : String := "GreaterThanThreshold"
def StatisticAverage : String := "Average"
def StandardUnitSeconds : String := "Seconds"

structure Dimension where
  Name : Option String
  Value : Option String
deriving DecidableEq, Repr

structure MetricDatum where
  MetricName : Option String
  Unit : Option String
  Value : Option Float64
  Dimensions : List Dimension
deriving DecidableEq, Repr

structure PutMetricDataInput where
  Namespace : Option String
  MetricData : List MetricDatum
deriving DecidableEq, Repr

structure PutMetricAlarmInput where
  AlarmName : Option String
  ComparisonOperator : Option String
  EvaluationPeriods : Option Int
  MetricName : Option String
  Namespace : Option String
  Period : Option Int
  Statistic : Option String
  Threshold : Option Float64
  ActionsEnabled : Option Bool
  AlarmDescription : Option String
  Unit : Option String
  AlarmActions : List (Option String)
  Dimensions : List Dimension
deriving DecidableEq, Repr

structure EnableAlarmActionsInput where
  AlarmNames : List (Option String)
deriving DecidableEq, Repr

structure DisableAlarmActionsInput where
  AlarmNames : List (Option String)
deriving DecidableEq, Repr

end cloudwatch

namespace ec2

structure Tag where
  Key : Option String
  Value : Option String
deriving DecidableEq, Repr

structure Instance where
  InstanceId : Option String
  Tags : List Tag
deriving DecidableEq, Repr

structure Reservation where
  Instances : List Instance
deriving DecidableEq, Repr

structure DescribeInstancesOutput where
  Reservations : List Reservation
deriving DecidableEq, Repr

end ec2

/-- One call of an SDK client method, with the input it was given. -/
inductive Request where
  | CreateQueue (input : sqs.CreateQueueInput)
  | DeleteQueue (input : sqs.DeleteQueueInput)
  | SetQueueAttributes (input : sqs.SetQueueAttributesInput)
  | GetQueueUrl (input : sqs.GetQueueUrlInput)
  | GetCallerIdentity
  | PutMetricData (input : cloudwatch.PutMetricDataInput)
  | PutMetricAlarm (input : cloudwatch.PutMetricAlarmInput)
  | EnableAlarmActions (input : cloudwatch.EnableAlarmActionsInput)
  | DisableAlarmActions (input : cloudwatch.DisableAlarmActionsInput)
  | DescribeInstances
deriving DecidableEq, Repr

/-! ## Environment and effects -/

/-- Everything outside the repository. Each SDK method answers from the list of the calls
made before it (oldest first) and its input, so that the outcome of every single call is
arbitrary: success or failure, fixed or depending on what happened earlier. -/
structure Env where
  /-- Go `ioutil.ReadFile` -/
  readFile : String → Except Error String
  /-- Go `json.Unmarshal` into the `Config` of the dead-letter-queue test -/
  unmarshalDeadLetter : String → DeadLetterQueue.Config → DeadLetterQueue.Config × Option Error
  /-- Go `json.Unmarshal` into the `Config` of the queue-URL test -/
  unmarshalQueueURL : String → GetQueueURL.Config → GetQueueURL.Config × Option Error
  /-- Go `json.Unmarshal` into the `config` of the alarm test -/
  unmarshalAlarm : String → DeleteAlarm.Config → DeleteAlarm.Config × Option Error
  /-- Go `json.Marshal` of a `map[string]string` -/
  jsonMarshal : List (String × String) → Except Error String
  /-- Go `session.NewSessionWithOptions` -/
  newSession : Except Error Session
  /-- Go `uuid.New().String()`, by the number of UUIDs drawn before -/
  uuid : Nat → String
  /-- Go `fmt.Sprintf` with one argument, a string -/
  sprintf : String → String → String
  /-- Go `time.Now().Format("2006-01-02 15:04:05 Monday")` -/
  now : String
  CreateQueue : List Request → sqs.CreateQueueInput → Except Error sqs.CreateQueueOutput
  DeleteQueue : List Request → sqs.DeleteQueueInput → Except Error Unit
  SetQueueAttributes : List Request → sqs.SetQueueAttributesInput → Except Error Unit
  GetQueueUrl : List Request → sqs.GetQueueUrlInput → Except Error sqs.GetQueueUrlOutput
  GetCallerIdentity : List Request → Except Error sts.GetCallerIdentityOutput
  PutMetricData : List Request → cloudwatch.PutMetricDataInput → Except Error Unit
  PutMetricAlarm : List Request → cloudwatch.PutMetricAlarmInput → Except Error Unit
  EnableAlarmActions : List Request → cloudwatch.EnableAlarmActionsInput → Except Error Unit
  DisableAlarmActions : List Request → cloudwatch.DisableAlarmActionsInput → Except Error Unit
  DescribeInstances : List Request → Except Error ec2.DescribeInstancesOutput
  /-- The number of requests the SDK client puts on the wire while it executes one method
  call, given the calls made before it: none when the client refuses the input itself, more
  than one when it sends a failed request again. -/
  wire : List Request → Request → Nat

/-- What a run has done so far. -/
structure World where
  /-- SDK calls issued, oldest first -/
  calls : List Request := []
  /-- lines logged through `testing.T` -/
  tlog : List String := []
  /-- lines written to standard output -/
  stdout : List String := []
  /-- lines written to standard error -/
  stderr : List String := []
  /-- number of UUIDs drawn -/
  uuids : Nat := 0
deriving DecidableEq, Repr

/-- How a Go function stops. -/
inductive Outcome (α : Type) where
  /-- it returns -/
  | ret (a : α)
  /-- a run-time panic -/
  | panic (text : String)
  /-- Go `testing.T.FailNow`: the test is marked failed and its goroutine exits -/
  | failNow
  /-- Go `os.Exit` -/
  | osExit (code : Nat)
deriving DecidableEq, Repr

/-- A Go function body: from the world before to its outcome and the world after. -/
def M (α : Type) : Type := World → Outcome α × World

instance : Monad M where
  pure a := fun w => (.ret a, w)
  bind m f := fun w =>
    match m w with
    | (.ret a, w1) => f a w1
    | (.panic text, w1) => (.panic text, w1)
    | (.failNow, w1) => (.failNow, w1)
    | (.osExit code, w1) => (.osExit code, w1)

/-- A computation that touches nothing outside but may stop in a run-time panic,
`.error` carrying the text of the panic. -/
abbrev Panics (α : Type) : Type := Except String α

/-- Dereference of a pointer: `*p`. -/
def deref {α : Type} (p : Option α) : Panics α :=
  match p with
  | some v => .ok v
  | none => .error "invalid memory address or nil pointer dereference"

/-- Unchecked indexing of a slice: `xs[i]`. -/
def index {α : Type} (xs : List α) (i : Nat) : Panics α :=
  match xs[i]? with
  | some v => .ok v
  | none => .error "index out of range"

/-- Runs a panicking computation inside a function body. -/
def liftP {α : Type} (p : Panics α) : M α :=
  match p with
  | .ok v => pure v
  | .error text => fun w => (.panic text, w)

/-- Go `t.Log(text)` -/
def t.Log (text : String) : M Unit := fun w => (.ret (), { w with tlog := w.tlog ++ [text] })

/-- Go `t.Fatal(text)`: `t.Log` followed by `t.FailNow`. -/
def t.Fatal {α : Type} (text : String) : M α :=
  fun w => (.failNow, { w with tlog := w.tlog ++ [text] })

/-- Go `log.Fatal(text)`: a line on standard error followed by `os.Exit(1)`. -/
def log.Fatal {α : Type} (text : String) : M α :=
  fun w => (.osExit 1, { w with stderr := w.stderr ++ [text] })

/-- Go `fmt.Println(text)`: one line on standard output (`fmt.Println()` is the empty
line). -/
def fmt.Println (text : String) : M Unit :=
  fun w => (.ret (), { w with stdout := w.stdout ++ [text] })

/-- Go `uuid.New().String()` -/
def uuid.New (env : Env) : M String :=
  fun w => (.ret (env.uuid w.uuids), { w with uuids := w.uuids + 1 })

/-- Go `session.Must(session.NewSessionWithOptions(...))` -/
def session.Must (r : Except Error Session) : M Session :=
  match r with
  | .ok sess => pure sess
  | .error err => liftP (.error err.msg)

/-- Records the call and hands back what the environment answers. -/
def remote {α : Type} (req : Request) (answer : List Request → Except Error α) :
    M (Except Error α) :=
  fun w => (.ret (answer w.calls), { w with calls := w.calls ++ [req] })

def sqs.CreateQueue (env : Env) (input : sqs.CreateQueueInput) :=
  remote (.CreateQueue input) (fun h => env.CreateQueue h input)

def sqs.DeleteQueue (env : Env) (input : sqs.DeleteQueueInput) :=
  remote (.DeleteQueue input) (fun h => env.DeleteQueue h input)

def sqs.SetQueueAttributes (env : Env) (input : sqs.SetQueueAttributesInput) :=
  remote (.SetQueueAttributes input) (fun h => env.SetQueueAttributes h input)

def sqs.GetQueueUrl (env : Env) (input : sqs.GetQueueUrlInput) :=
  remote (.GetQueueUrl input) (fun h => env.GetQueueUrl h input)

def sts.GetCallerIdentity (env : Env) :=
  remote .GetCallerIdentity env.GetCallerIdentity

def cloudwatch.PutMetricData (env : Env) (input : cloudwatch.PutMetricDataInput) :=
  remote (.PutMetricData input) (fun h => env.PutMetricData h input)

def cloudwatch.PutMetricAlarm (env : Env) (input : cloudwatch.PutMetricAlarmInput) :=
  remote (.PutMetricAlarm input) (fun h => env.PutMetricAlarm h input)

def cloudwatch.EnableAlarmActions (env : Env) (input : cloudwatch.EnableAlarmActionsInput) :=
  remote (.EnableAlarmActions input) (fun h => env.EnableAlarmActions h input)

def cloudwatch.DisableAlarmActions (env : Env) (input : cloudwatch.DisableAlarmActionsInput) :=
  remote (.DisableAlarmActions input) (fun h => env.DisableAlarmActions h input)

def ec2.DescribeInstances (env : Env) :=
  remote .DescribeInstances env.DescribeInstances

/-! ## `go/sqs/DeadLetterQueue` -/

namespace DeadLetterQueue

def configFileName : String := "config.json"

/-- The function `populateConfiguration` of `DeadLetterQueue_test.go`; the package variable
`globalConfig` is passed in and handed back. -/
def populateConfiguration (env : Env) (globalConfig : Config) : M (Config × Option Error) := do
  match env.readFile configFileName with
  | .error err => pure (globalConfig, some err)
  | .ok content =>
    let text := content
    match env.unmarshalDeadLetter text globalConfig with
    | (globalConfig, some err) => pure (globalConfig, some err)
    | (globalConfig, none) =>
      let id ← uuid.New env
      let globalConfig :=
        if globalConfig.QueueName = "" then { globalConfig with QueueName := "myqueue-" ++ id }
        else globalConfig
      let globalConfig :=
        if globalConfig.DlQueueName = "" then
          { globalConfig with DlQueueName := "mydlqueue-" ++ id }
        else globalConfig
      pure (globalConfig, none)

/-- The function `createQueue` of `DeadLetterQueue_test.go`. -/
def createQueue (env : Env) (_sess : Session) (queueName : String) :
    M (String × Option Error) := do
  let r ← sqs.CreateQueue env
    { QueueName := awsString queueName
      Attributes := [("DelaySeconds", awsString "60"),
                     ("MessageRetentionPeriod", awsString "86400")] }
  match r with
  | .error err => pure ("", some err)
  | .ok result =>
    let url ← liftP (deref result.QueueUrl)
    pure (url, none)

/-- The function `getQueueArn` of `DeadLetterQueue_test.go`. -/
def getQueueArn (queueURL : String) : Panics (String × Option Error) := do
  let parts := strings.Split queueURL '/'
  let host ← index parts 2
  let subParts := strings.Split host '.'
  let service ← index subParts 0
  let region ← index subParts 1
  let account ← index parts 3
  let name ← index parts 4
  pure ("arn:aws:" ++ service ++ ":" ++ region ++ ":" ++ account ++ ":" ++ name, none)

/-- The function `deleteQueue` of `DeadLetterQueue_test.go`. -/
def deleteQueue (env : Env) (_sess : Session) (queueURL : String) : M (Option Error) := do
  let r ← sqs.DeleteQueue env { QueueUrl := awsString queueURL }
  match r with
  | .error err => pure (some err)
  | .ok _ => pure none

/-- The function `ConfigureDeadLetterQueue` of `DeadLetterQueue.go`. -/
def ConfigureDeadLetterQueue (env : Env) (_sess : Session)
    (deadLetterQueueARN : String) (queueURL : String) : M (Option Error) := do
  let policy := [("deadLetterTargetArn", deadLetterQueueARN), ("maxReceiveCount", "10")]
  match env.jsonMarshal policy with
  | .error err => pure (some err)
  | .ok b =>
    let r ← sqs.SetQueueAttributes env
      { QueueUrl := awsString queueURL
        Attributes := [(sqs.QueueAttributeNameRedrivePolicy, awsString b)] }
    match r with
    | .error err => pure (some err)
    | .ok _ => pure none

/-- The function `TestQueue` of `DeadLetterQueue_test.go`. -/
def TestQueue (env : Env) : M Unit := do
  let (globalConfig, err) ← populateConfiguration env {}
  match err with
  | some err => t.Fatal err.msg
  | none =>
  let sess ← session.Must env.newSession
  let (createURL, err) ← createQueue env sess globalConfig.QueueName
  match err with
  | some err => t.Fatal err.msg
  | none =>
  t.Log ("Got URL " ++ createURL ++ " for queue " ++ globalConfig.QueueName)
  let (dlURL, err) ← createQueue env sess globalConfig.DlQueueName
  match err with
  | some err => t.Fatal err.msg
  | none =>
  let (dlARN, err) ← liftP (getQueueArn dlURL)
  match err with
  | some err => t.Fatal err.msg
  | none =>
  t.Log ("Created dead-letter queue " ++ globalConfig.DlQueueName)
  let err ← ConfigureDeadLetterQueue env sess dlARN createURL
  match err with
  | some err => t.Fatal err.msg
  | none =>
  let err ← deleteQueue env sess createURL
  match err with
  | some err => do
    t.Log ("You'll have to delete queue " ++ globalConfig.QueueName ++ " yourself")
    t.Fatal err.msg
  | none =>
  let err ← deleteQueue env sess dlURL
  match err with
  | some err => do
    t.Log ("You'll have to delete queue " ++ globalConfig.DlQueueName ++ " yourself")
    t.Fatal err.msg
  | none =>
  t.Log ("Deleted queue " ++ globalConfig.QueueName)
  t.Log ("Deleted queue " ++ globalConfig.DlQueueName)

/-- The function `main` of `DeadLetterQueue.go`, from the values `flag.Parse` has stored for
the flags `-u` and `-d`. -/
def main (env : Env) (queueURLPtr : String) (dlQueueARN : String) : M Unit := do
  if queueURLPtr = "" ∨ dlQueueARN = "" then
    fmt.Println ("You must supply the URL of the queue (-u QUEUE-URL) and the ARN of the " ++
      "dead-letter queue (-d QUEUE-ARN)")
  else
  let sess ← session.Must env.newSession
  let err ← ConfigureDeadLetterQueue env sess dlQueueARN queueURLPtr
  match err with
  | some err => do
    fmt.Println "Got an error creating the dead-letter queue:"
    fmt.Println err.msg
  | none =>
  fmt.Println "Created dead-letter queue"

end DeadLetterQueue

/-! ## `go/sqs/GetQueueURL`

The test function `TestQueue` of `GetQueueURL_test.go` is not embedded. Its line 144 calls
`GetQueueURL(sess, globalConfig.QueueName)` with a `string` where `GetQueueURL` takes a
`*string`, so the test package does not build and the function has no run to describe. The
other functions of the test file are embedded as they stand. -/

namespace GetQueueURL

def configFileName : String := "config.json"

/-- The function `populateConfiguration` of `GetQueueURL_test.go`. -/
def populateConfiguration (env : Env) (globalConfig : Config) : M (Config × Option Error) := do
  match env.readFile configFileName with
  | .error err => pure (globalConfig, some err)
  | .ok content =>
    let text := content
    match env.unmarshalQueueURL text globalConfig with
    | (globalConfig, some err) => pure (globalConfig, some err)
    | (globalConfig, none) => pure (globalConfig, none)

/-- The function `createQueue` of `GetQueueURL_test.go`. -/
def createQueue (env : Env) (_sess : Session) (queueName : String) :
    M (String × Option Error) := do
  let r ← sqs.CreateQueue env
    { QueueName := awsString queueName
      Attributes := [("DelaySeconds", awsString "60"),
                     ("MessageRetentionPeriod", awsString "86400")] }
  match r with
  | .error err => pure ("", some err)
  | .ok result =>
    let url ← liftP (deref result.QueueUrl)
    pure (url, none)

/-- The function `getFakeURL` of `GetQueueURL_test.go`. -/
def getFakeURL (env : Env) (sess : Session) (queueName : String) :
    M (String × Option Error) := do
  let region := sess.Region
  let r ← sts.GetCallerIdentity env
  match r with
  | .error err => pure ("", some err)
  | .ok result =>
    let accountID := awsStringValue result.Account
    let regionName ← liftP (deref region)
    pure ("https://sqs." ++ regionName ++ ".amazonaws.com/" ++ accountID ++ "/" ++ queueName,
      none)

/-- The function `deleteQueue` of `GetQueueURL_test.go`. -/
def deleteQueue (env : Env) (_sess : Session) (queueURL : String) : M (Option Error) := do
  let r ← sqs.DeleteQueue env { QueueUrl := awsString queueURL }
  match r with
  | .error err => pure (some err)
  | .ok _ => pure none

/-- The function `GetQueueURL` of `GetQueueURL.go`. -/
def GetQueueURL (env : Env) (_sess : Session) (queueName : Option String) :
    M (String × Option Error) := do
  let r ← sqs.GetQueueUrl env { QueueName := queueName }
  match r with
  | .error err => pure ("", some err)
  | .ok result =>
    let url ← liftP (deref result.QueueUrl)
    pure (url, none)

/-- The function `main` of `GetQueueURL.go`, from the value `flag.Parse` has stored for the
flag `-n`. -/
def main (env : Env) (queueName : String) : M Unit := do
  if queueName = "" then
    fmt.Println "You must supply a queue name (-n QUEUE-NAME"
  else
  let sess ← session.Must env.newSession
  let (url, err) ← GetQueueURL env sess (some queueName)
  match err with
  | some err => do
    fmt.Println "Got an error getting the queue URL:"
    fmt.Println err.msg
  | none =>
  fmt.Println ("URL for queue " ++ queueName ++ ": " ++ url)

end GetQueueURL

/-! ## `go/cloudwatch/CreateCustomMetric` -/

namespace CreateCustomMetric

/-- The function `CreateCustomMetric` of `CreateCustomMetric.go`. -/
def CreateCustomMetric (env : Env) (_sess : Session) (namespace_ : String)
    (metricName : String) (unit : String) (value : Float64) (dimensionName : String)
    (dimensionValue : String) : M (Option Error) := do
  let r ← cloudwatch.PutMetricData env
    { Namespace := awsString namespace_
      MetricData := [
        { MetricName := awsString metricName
          Unit := awsString unit
          Value := awsFloat64 value
          Dimensions := [
            { Name := awsString dimensionName
              Value := awsString dimensionValue }] }] }
  match r with
  | .error err => pure (some err)
  | .ok _ => pure none

/-- The function `main` of `CreateCustomMetric.go`, from the values `flag.Parse` has stored
for the flags `-n`, `-m`, `-u`, `-v`, `-dn` and `-dv`. On an error it calls `fmt.Println()`
without an argument, which writes an empty line. -/
def main (env : Env) (namespace_ : String) (metricName : String) (unit : String)
    (value : Float64) (dimensionName : String) (dimensionValue : String) : M Unit := do
  let sess ← session.Must env.newSession
  let err ← CreateCustomMetric env sess namespace_ metricName unit value dimensionName
    dimensionValue
  match err with
  | some _ => fmt.Println ""
  | none => pure ()

end CreateCustomMetric

/-! ## `go/cloudwatch/DeleteAlarm` (test file) -/

namespace DeleteAlarm

def configFileName : String := "config.json"

/-- The innermost loop of `getEc2Info`: the value of the first tag whose key is `Name`,
the empty string when there is none. -/
def nameTag : List ec2.Tag → Panics String
  | [] => pure ""
  | tag :: tags => do
    let key ← deref tag.Key
    if key = "Name" then deref tag.Value
    else nameTag tags

/-- The loop of `getEc2Info` over the instances of one reservation; `none` when the loop
ends without returning. -/
def scanInstances : List ec2.Instance → Panics (Option (String × String))
  | [] => pure none
  | inst :: rest => do
    let id := inst.InstanceId
    let name ← nameTag inst.Tags
    let idValue ← deref id
    if idValue ≠ "" ∧ name ≠ "" then pure (some (idValue, name))
    else scanInstances rest

/-- The outer loop of `getEc2Info` over the reservations. -/
def scanReservations : List ec2.Reservation → Panics (Option (String × String))
  | [] => pure none
  | reservation :: rest => do
    match ← scanInstances reservation.Instances with
    | some found => pure (some found)
    | none => scanReservations rest

/-- The function `getEc2Info` of `DeleteAlarm_test.go`. -/
def getEc2Info (env : Env) (_sess : Session) : M (String × String × Option Error) := do
  let r ← ec2.DescribeInstances env
  match r with
  | .error err => pure ("", "", some err)
  | .ok result =>
    match ← liftP (scanReservations result.Reservations) with
    | some (id, name) => pure (id, name, none)
    | none => pure ("", "", some (errors.New "No EC2 instance found with name and ID"))

/-- The function `populateConfig` of `DeleteAlarm_test.go`. -/
def populateConfig (env : Env) (sess : Session) (globalConfig : Config) :
    M (Config × Option Error) := do
  match env.readFile configFileName with
  | .error err => pure (globalConfig, some err)
  | .ok content =>
    let text := content
    match env.unmarshalAlarm text globalConfig with
    | (globalConfig, some err) => pure (globalConfig, some err)
    | (globalConfig, none) =>
      let (globalConfig, err) ←
        (if globalConfig.InstanceName = "" ∨ globalConfig.InstanceID = "" then do
          let (first, second, err) ← getEc2Info env sess
          pure ({ globalConfig with InstanceName := first, InstanceID := second }, err)
        else pure (globalConfig, none) : M (Config × Option Error))
      match err with
      | some err => pure (globalConfig, some err)
      | none =>
        let globalConfig ←
          (if globalConfig.AlarmName = "" then do
            let id ← uuid.New env
            pure { globalConfig with AlarmName := "Alarm70-" ++ id }
          else pure globalConfig : M Config)
        t.Log ("Instance Name: " ++ globalConfig.InstanceName)
        t.Log ("Instance ID:   " ++ globalConfig.InstanceID)
        t.Log ("Alarm name:    " ++ globalConfig.AlarmName)
        pure (globalConfig, none)

/-- The function `enableAlarm` of `DeleteAlarm_test.go`. -/
def enableAlarm (env : Env) (sess : Session) (instanceName : Option String)
    (instanceID : Option String) (alarmName : Option String) : M (Option Error) := do
  let region ← liftP (deref sess.Region)
  let instanceNameValue ← liftP (deref instanceName)
  let r ← cloudwatch.PutMetricAlarm env
    { AlarmName := alarmName
      ComparisonOperator := awsString cloudwatch.ComparisonOperatorGreaterThanThreshold
      EvaluationPeriods := awsInt64 1
      MetricName := awsString "CPUUtilization"
      Namespace := awsString "AWS/EC2"
      Period := awsInt64 60
      Statistic := awsString cloudwatch.StatisticAverage
      Threshold := awsFloat64 ⟨0x4051800000000000⟩
      ActionsEnabled := awsBool true
      AlarmDescription := awsString "Alarm when server CPU exceeds 70%"
      Unit := awsString cloudwatch.StandardUnitSeconds
      AlarmActions := [
        awsString (env.sprintf
          ("arn:aws:swf:" ++ region ++ ":%s:action/actions/AWS_EC2.InstanceId.Reboot/1.0")
          instanceNameValue)]
      Dimensions := [
        { Name := awsString "InstanceId"
          Value := instanceID }] }
  match r with
  | .error err => pure (some err)
  | .ok _ =>
    let r ← cloudwatch.EnableAlarmActions env { AlarmNames := [instanceID] }
    match r with
    | .error err => pure (some err)
    | .ok _ => pure none

/-- The function `disableAlarm` of `DeleteAlarm_test.go`. -/
def disableAlarm (env : Env) (_sess : Session) (alarmName : Option String) :
    M (Option Error) := do
  let r ← cloudwatch.DisableAlarmActions env { AlarmNames := [alarmName] }
  match r with
  | .error err => pure (some err)
  | .ok _ => pure none

/-- The function `TestDisableAlarmActions` of `DeleteAlarm_test.go`. The function
`DeleteAlarm` it ends with is defined in a file of the package that is not among the sources
embedded here, so it is an argument. -/
def TestDisableAlarmActions (env : Env)
    (DeleteAlarm : Session → Option String → M (Option Error)) : M Unit := do
  let nowString := env.now
  t.Log ("Started unit test at " ++ nowString)
  let sess ← session.Must env.newSession
  let (globalConfig, err) ← populateConfig env sess {}
  match err with
  | some _ => t.Fatal ("Could not get configuration values from " ++ configFileName)
  | none =>
  let err ← enableAlarm env sess (some globalConfig.InstanceName)
    (some globalConfig.InstanceID) (some globalConfig.AlarmName)
  match err with
  | some _ =>
    t.Fatal ("Could not create alarm " ++ globalConfig.AlarmName ++ " for instance " ++
      globalConfig.InstanceName)
  | none =>
  t.Log ("Enabled alarm " ++ globalConfig.AlarmName ++ " for instance " ++
    globalConfig.InstanceName)
  let err ← disableAlarm env sess (some globalConfig.AlarmName)
  match err with
  | some err => t.Fatal err.msg
  | none =>
  t.Log ("Disabled alarm " ++ globalConfig.AlarmName)
  let err ← DeleteAlarm sess (some globalConfig.AlarmName)
  match err with
  | some err => t.Fatal err.msg
  | none =>
  t.Log ("Deleted alarm " ++ globalConfig.AlarmName)

end DeleteAlarm

/-! ## The requests the code issues, for the statements below -/

/-- The input `createQueue` builds for the queue name `name`. -/
def createQueueInput (name : String) : sqs.CreateQueueInput :=
  { QueueName := some name
    Attributes := [("DelaySeconds", some "60"), ("MessageRetentionPeriod", some "86400")] }

/-- The input `ConfigureDeadLetterQueue` builds for the queue URL `u` once the redrive policy
is encoded as `b`. -/
def redriveInput (u b : String) : sqs.SetQueueAttributesInput :=
  { QueueUrl := some u, Attributes := [("RedrivePolicy", some b)] }

/-- The redrive policy `ConfigureDeadLetterQueue` builds for the dead-letter-queue ARN. -/
def redrivePolicy (arn : String) : List (String × String) :=
  [("deadLetterTargetArn", arn), ("maxReceiveCount", "10")]

/-- The queue URLs targeted by the `DeleteQueue` calls of a list of calls, in order. -/
def deleteTargets : List Request → List (Option String)
  | [] => []
  | .DeleteQueue input :: rest => input.QueueUrl :: deleteTargets rest
  | _ :: rest => deleteTargets rest

/-- The queue names of the `CreateQueue` calls of a list of calls, in order. -/
def createdNames : List Request → List (Option String)
  | [] => []
  | .CreateQueue input :: rest => input.QueueName :: createdNames rest
  | _ :: rest => createdNames rest

/-- The number of requests that reach the remote API during the method calls `calls`, made
one after the other after the calls `before`. -/
def sentFrom (env : Env) (before : List Request) : List Request → Nat
  | [] => 0
  | req :: rest => env.wire before req + sentFrom env (before ++ [req]) rest

/-- A URL that has at least four `/`, the segment between the second and the third of them
holding at least one `.`: it reads `a/b/h/rest` with no `/` in `a`, `b` and `h`, a `.` in `h`
and one more `/` in `rest`. -/
def hasArnShape (u : String) : Prop :=
  4 ≤ u.data.count '/' ∧
    ∃ a b h rest, '/' ∉ a ∧ '/' ∉ b ∧ '/' ∉ h ∧
      u.data = a ++ '/' :: (b ++ '/' :: (h ++ '/' :: rest)) ∧ '.' ∈ h

/-- A function body only ever adds calls to the record. -/
def Appends {α : Type} (m : M α) : Prop := ∀ w, ∃ cs, (m w).2.calls = w.calls ++ cs

/-- The input `CreateCustomMetric` builds from its arguments. -/
def metricInput (namespace_ metricName unit : String) (value : Float64)
    (dimensionName dimensionValue : String) : cloudwatch.PutMetricDataInput :=
  { Namespace := some namespace_
    MetricData := [
      { MetricName := some metricName
        Unit := some unit
        Value := some value
        Dimensions := [{ Name := some dimensionName, Value := some dimensionValue }] }] }

/-! ## A sample environment

A well-behaved account in region `us-west-2`: every call succeeds, a queue named `n` gets
the URL `https://sqs.us-west-2.amazonaws.com/123456789012/n`, and the configuration file
names the queues `q1` and `dlq1`. The other sample environments change one thing each. -/

namespace Sample

/-- A JSON string literal, with the quote and the backslash escaped. -/
def quote (s : String) : String :=
  let body := s.data.map fun c =>
    if c = Char.ofNat 34 ∨ c = Char.ofNat 92 then [Char.ofNat 92, c] else [c]
  String.mk ([Char.ofNat 34] ++ body.flatten ++ [Char.ofNat 34])

/-- A JSON object whose members are strings. -/
def marshal (m : List (String × String)) : String :=
  "\x7b" ++ ",".intercalate (m.map fun kv => quote kv.1 ++ ":" ++ quote kv.2) ++ "\x7d"

/-- A configuration file with the two queue names `q` and `d`. -/
def configOf (q d : String) : String :=
  marshal [("QueueName", q), ("DlQueueName", d)]

/-- A configuration file for the alarm test. -/
def alarmConfigOf (c : DeleteAlarm.Config) : String :=
  marshal [("InstanceName", c.InstanceName), ("InstanceID", c.InstanceID),
    ("AlarmName", c.AlarmName)]

/-- The content of the sample configuration file: the queue names `q1` and `dlq1`. -/
def configText : String := configOf "q1" "dlq1"

/-- The URL of the queue `name` in the sample account. -/
def queueURL (name : String) : String :=
  "https://sqs.us-west-2.amazonaws.com/123456789012/" ++ name

/-- The n-th UUID is a run of `n + 1` letters, so that different draws differ. -/
def uuid (n : Nat) : String := String.mk (List.replicate (n + 1) 'a')

/-- Puts the argument in the place of the first `%s` of the format. -/
def substitute : List Char → List Char → List Char
  | [], _ => []
  | [c], _ => [c]
  | c :: d :: rest, arg =>
    if c = '%' ∧ d = 's' then arg ++ rest else c :: substitute (d :: rest) arg

def env : Env where
  readFile := fun _ => .ok configText
  unmarshalDeadLetter := fun text g =>
    if text = configText then ({ QueueName := "q1", DlQueueName := "dlq1" }, none)
    else if text = "\x7b\x7d" then (g, none)
    else (g, some ⟨"invalid character"⟩)
  unmarshalQueueURL := fun text g =>
    if text = configText then ({ QueueName := "q1" }, none)
    else if text = "\x7b\x7d" then (g, none)
    else (g, some ⟨"invalid character"⟩)
  unmarshalAlarm := fun _ g => (g, none)
  jsonMarshal := fun m => .ok (marshal m)
  newSession := .ok ⟨some "us-west-2"⟩
  uuid := uuid
  sprintf := fun format arg => String.mk (substitute format.data arg.data)
  now := "2020-06-01 12:00:00 Monday"
  CreateQueue := fun _ input => .ok ⟨some (queueURL (input.QueueName.getD ""))⟩
  DeleteQueue := fun _ _ => .ok ()
  SetQueueAttributes := fun _ _ => .ok ()
  GetQueueUrl := fun _ input => .ok ⟨some (queueURL (input.QueueName.getD ""))⟩
  GetCallerIdentity := fun _ => .ok ⟨some "123456789012"⟩
  PutMetricData := fun _ _ => .ok ()
  PutMetricAlarm := fun _ _ => .ok ()
  EnableAlarmActions := fun _ _ => .ok ()
  DisableAlarmActions := fun _ _ => .ok ()
  DescribeInstances := fun _ =>
    .ok ⟨[⟨[⟨some "i-0123456789abcdef0", [⟨some "Name", some "web-1"⟩]⟩]⟩]⟩
  wire := fun _ _ => 1

/-- The sample environment with a configuration file that names the queues `q` and `d`. -/
def queueEnv (q d : String) : Env :=
  { env with
    readFile := fun _ => .ok (configOf q d)
    unmarshalDeadLetter := fun _ _ => ({ QueueName := q, DlQueueName := d }, none)
    unmarshalQueueURL := fun _ _ => ({ QueueName := q }, none) }

/-- The sample environment with a configuration file that holds `c` for the alarm test. -/
def alarmEnv (c : DeleteAlarm.Config) : Env :=
  { env with
    readFile := fun _ => .ok (alarmConfigOf c)
    unmarshalAlarm := fun _ _ => (c, none) }

/-- The session of the sample environment. -/
def sess : Session := ⟨some "us-west-2"⟩

/-- The sample environment, except that `SetQueueAttributes` is refused. -/
def configureFails : Env :=
  { env with SetQueueAttributes := fun _ _ => .error ⟨"AccessDenied"⟩ }

/-- The sample environment, except that the queue `q1` cannot be deleted. -/
def firstDeleteFails : Env :=
  { env with
    DeleteQueue := fun _ input =>
      if input.QueueUrl = some (queueURL "q1") then .error ⟨"AccessDenied"⟩ else .ok () }

/-- The sample environment, except that the queue `dlq1` cannot be created. -/
def secondCreateFails : Env :=
  { env with
    CreateQueue := fun _ input =>
      if input.QueueName = some "dlq1" then .error ⟨"OverLimit"⟩
      else .ok ⟨some (queueURL (input.QueueName.getD ""))⟩ }

/-- The sample environment, except that queue URLs have no path: `http://localhost:9324`. -/
def shortURL : Env :=
  { env with CreateQueue := fun _ _ => .ok ⟨some "http://localhost:9324"⟩ }

/-- The sample environment with a blank queue name, except that `GetQueueUrl` fails. -/
def lookupFails : Env :=
  { queueEnv "" "" with
    GetQueueUrl := fun _ _ => .error ⟨"AWS.SimpleQueueService.NonExistentQueue"⟩ }

/-- The sample environment with blank alarm configuration, except that `DescribeInstances`
fails. -/
def describeFails : Env :=
  { alarmEnv {} with DescribeInstances := fun _ => .error ⟨"RequestExpired"⟩ }

/-- The sample environment, except that `PutMetricData` is refused. -/
def metricFails : Env :=
  { env with PutMetricData := fun _ _ => .error ⟨"AccessDenied"⟩ }

/-- The sample environment with a blank alarm configuration and four instances in two
reservations: one without tags, one without an ID, then `i-0c` named `web-2` by its second
tag, then `i-0d` named `web-3`. -/
def fleet : Env :=
  { alarmEnv {} with
    DescribeInstances := fun _ =>
      .ok ⟨[⟨[⟨some "i-0a", []⟩]⟩,
            ⟨[⟨some "", [⟨some "Name", some "ghost"⟩]⟩,
              ⟨some "i-0c", [⟨some "Owner", some "ops"⟩, ⟨some "Name", some "web-2"⟩]⟩,
              ⟨some "i-0d", [⟨some "Name", some "web-3"⟩]⟩]⟩]⟩ }

/-- The sample environment with a blank alarm configuration and no instance that has both a
name and an ID. -/
def unnamedFleet : Env :=
  { alarmEnv {} with
    DescribeInstances := fun _ =>
      .ok ⟨[⟨[⟨some "i-0a", []⟩, ⟨some "", [⟨some "Name", some "ghost"⟩]⟩]⟩]⟩ }

/-- The sample environment with a client that behaves as the SDK's does: it refuses a
`PutMetricData` with an empty namespace and a `GetQueueUrl` without a queue name by itself,
nothing being sent, and it sends a `SetQueueAttributes` that the service answers with status
500 four times, the first attempt and three more, before it gives up. -/
def sdk : Env :=
  { env with
    PutMetricData := fun _ input =>
      if input.Namespace = some "" then .error ⟨"InvalidParameter: validation error(s) found."⟩
      else .ok ()
    GetQueueUrl := fun _ input =>
      if input.QueueName = none then .error ⟨"InvalidParameter: validation error(s) found."⟩
      else .ok ⟨some (queueURL (input.QueueName.getD ""))⟩
    SetQueueAttributes := fun _ _ => .error ⟨"InternalFailure: status code: 500"⟩
    wire := fun _ req =>
      match req with
      | .PutMetricData input => if input.Namespace = some "" then 0 else 1
      | .GetQueueUrl input => if input.QueueName = none then 0 else 1
      | .SetQueueAttributes _ => 4
      | _ => 1 }

/-- The sample environment, except that `GetQueueUrl` succeeds with a response that carries
no `QueueUrl`. -/
def noQueueUrl : Env :=
  { env with GetQueueUrl := fun _ _ => .ok ⟨none⟩ }

end Sample

/-! # Theorems -/

/-! ## Splitting -/

theorem splitChars_ne_nil (sep : Char) (s : List Char) : splitChars sep s ≠ [] := by
  induction s with
  | nil => simp [splitChars]
  | cons c cs ih =>
    unfold splitChars
    split
    · simp
    · split
      · simp
      · simp

theorem splitChars_of_not_mem (sep : Char) (s : List Char) (h : sep ∉ s) :
    splitChars sep s = [s] := by
  induction s with
  | nil => rfl
  | cons c cs ih =>
    have hc : c ≠ sep := fun e => h (by simp [e])
    have hcs : sep ∉ cs := fun m => h (List.mem_cons_of_mem _ m)
    simp [splitChars, hc, ih hcs]

theorem splitChars_append_sep (sep : Char) (a b : List Char) (h : sep ∉ a) :
    splitChars sep (a ++ sep :: b) = a :: splitChars sep b := by
  induction a with
  | nil => simp [splitChars]
  | cons c cs ih =>
    have hc : c ≠ sep := fun e => h (by simp [e])
    have hcs : sep ∉ cs := fun m => h (List.mem_cons_of_mem _ m)
    simp [splitChars, hc, ih hcs]

theorem split_of_not_mem (sep : Char) (s : String) (h : sep ∉ s.data) :
    strings.Split s sep = [s] := by
  simp [strings.Split, splitChars_of_not_mem sep s.data h]

theorem split_append_sep (sep : Char) (a b : String) (h : sep ∉ a.data) :
    strings.Split (a ++ String.singleton sep ++ b) sep = a :: strings.Split b sep := by
  simp [strings.Split, String.singleton, splitChars_append_sep sep a.data b.data h]

theorem documented_url_shape (R A N : String) :
    "https://sqs." ++ R ++ ".amazonaws.com/" ++ A ++ "/" ++ N =
      "https:" ++ String.singleton '/' ++ ("" ++ String.singleton '/' ++
        (("sqs" ++ String.singleton '.' ++ (R ++ String.singleton '.' ++ "amazonaws.com")) ++
          String.singleton '/' ++ (A ++ String.singleton '/' ++ N))) := by
  apply String.ext
  have h1 : "https://sqs.".data = "https:".data ++ '/' :: '/' :: "sqs".data ++ ['.'] := rfl
  have h2 : ".amazonaws.com/".data = '.' :: "amazonaws.com".data ++ ['/'] := rfl
  have h3 : "/".data = ['/'] := rfl
  have h4 : "".data = [] := rfl
  simp only [String.data_append, String.singleton, h1, h2, h3, h4]
  simp

/-! ## Running function bodies -/

theorem M.pure_run {α : Type} (a : α) (w : World) : (pure a : M α) w = (.ret a, w) := rfl

theorem M.bind_run {α β : Type} (m : M α) (f : α → M β) (w : World) :
    (m >>= f) w =
      match m w with
      | (.ret a, w1) => f a w1
      | (.panic text, w1) => (.panic text, w1)
      | (.failNow, w1) => (.failNow, w1)
      | (.osExit code, w1) => (.osExit code, w1) := rfl

theorem M.bind_assoc_run {α β γ : Type} (m : M α) (k : α → M β) (f : β → M γ)
    (w : World) :
    ((m >>= k) >>= f) w = (m >>= fun a => k a >>= f) w := by
  simp only [M.bind_run]
  rcases m w with ⟨a | text | _ | code, w1⟩ <;> rfl

theorem remote_run {α : Type} (req : Request) (answer : List Request → Except Error α)
    (w : World) :
    remote req answer w = (.ret (answer w.calls), { w with calls := w.calls ++ [req] }) := rfl

theorem tLog_run (text : String) (w : World) :
    t.Log text w = (.ret (), { w with tlog := w.tlog ++ [text] }) := rfl

theorem tFatal_run {α : Type} (text : String) (w : World) :
    (t.Fatal text : M α) w = (.failNow, { w with tlog := w.tlog ++ [text] }) := rfl

theorem logFatal_run {α : Type} (text : String) (w : World) :
    (log.Fatal text : M α) w = (.osExit 1, { w with stderr := w.stderr ++ [text] }) := rfl

theorem uuidNew_run (env : Env) (w : World) :
    uuid.New env w = (.ret (env.uuid w.uuids), { w with uuids := w.uuids + 1 }) := rfl

theorem liftP_ok_run {α : Type} (v : α) (w : World) : liftP (.ok v) w = (.ret v, w) := rfl

theorem liftP_error_run {α : Type} (text : String) (w : World) :
    (liftP (.error text) : M α) w = (.panic text, w) := rfl

theorem sessionMust_ok_run (sess : Session) (w : World) :
    session.Must (.ok sess) w = (.ret sess, w) := rfl

/-! ## Function bodies only add calls -/

theorem Appends.pure {α : Type} (a : α) : Appends (pure a : M α) :=
  fun _ => ⟨[], by simp [M.pure_run]⟩

theorem Appends.bind {α β : Type} {m : M α} {f : α → M β} (hm : Appends m)
    (hf : ∀ a, Appends (f a)) : Appends (m >>= f) := by
  intro w
  obtain ⟨cs, hcs⟩ := hm w
  rw [M.bind_run]
  rcases hrun : m w with ⟨a | text | _ | code, w1⟩ <;> rw [hrun] at hcs <;> simp only at hcs ⊢
  · obtain ⟨ds, hds⟩ := hf a w1
    exact ⟨cs ++ ds, by rw [hds, hcs, List.append_assoc]⟩
  · exact ⟨cs, hcs⟩
  · exact ⟨cs, hcs⟩
  · exact ⟨cs, hcs⟩

theorem Appends.remote {α : Type} (req : Request) (answer : List Request → Except Error α) :
    Appends (remote req answer) := fun _ => ⟨[req], rfl⟩

theorem Appends.tLog (text : String) : Appends (t.Log text) := fun _ => ⟨[], by simp [tLog_run]⟩

theorem Appends.tFatal {α : Type} (text : String) : Appends (t.Fatal text : M α) :=
  fun _ => ⟨[], by simp [tFatal_run]⟩

theorem Appends.logFatal {α : Type} (text : String) : Appends (log.Fatal text : M α) :=
  fun _ => ⟨[], by simp [logFatal_run]⟩

theorem Appends.liftP {α : Type} (p : Panics α) : Appends (liftP p) := by
  intro w
  cases p with
  | ok v => exact ⟨[], by simp [liftP_ok_run]⟩
  | error text => exact ⟨[], by simp [liftP_error_run]⟩

theorem Appends.uuidNew (env : Env) : Appends (uuid.New env) :=
  fun _ => ⟨[], by simp [uuidNew_run]⟩

theorem Appends.deleteQueue (env : Env) (sess : Session) (u : String) :
    Appends (DeadLetterQueue.deleteQueue env sess u) := by
  unfold DeadLetterQueue.deleteQueue sqs.DeleteQueue
  refine Appends.bind (Appends.remote _ _) fun r => ?_
  cases r <;> exact Appends.pure _

theorem Appends.createQueue (env : Env) (sess : Session) (name : String) :
    Appends (DeadLetterQueue.createQueue env sess name) := by
  unfold DeadLetterQueue.createQueue sqs.CreateQueue
  refine Appends.bind (Appends.remote _ _) fun r => ?_
  cases r
  · exact Appends.pure _
  · exact Appends.bind (Appends.liftP _) fun _ => Appends.pure _

theorem Appends.configure (env : Env) (sess : Session) (a u : String) :
    Appends (DeadLetterQueue.ConfigureDeadLetterQueue env sess a u) := by
  unfold DeadLetterQueue.ConfigureDeadLetterQueue sqs.SetQueueAttributes
  simp only []
  cases env.jsonMarshal _
  · exact Appends.pure _
  · refine Appends.bind (Appends.remote _ _) fun r => ?_
    cases r <;> exact Appends.pure _

theorem Appends.run_after {α : Type} {m : M α} (hm : Appends m) (w : World)
    (before : List Request) (c : Request) (h : w.calls = before ++ [c]) :
    ∃ cs, (m w).2.calls = before ++ c :: cs := by
  obtain ⟨cs, hcs⟩ := hm w
  exact ⟨cs, by rw [hcs, h]; simp⟩

/-! ## Facts about the helpers -/

/-- The function `getEc2Info` draws no UUID. -/
theorem getEc2Info_uuids (env : Env) (sess : Session) (w : World) :
    (DeleteAlarm.getEc2Info env sess w).2.uuids = w.uuids := by
  simp only [DeleteAlarm.getEc2Info, M.bind_run, ec2.DescribeInstances, remote_run]
  cases env.DescribeInstances w.calls with
  | error e => rfl
  | ok result =>
    simp only []
    cases DeleteAlarm.scanReservations result.Reservations with
    | error text => rfl
    | ok found => cases found <;> rfl

theorem deleteTargets_append (xs ys : List Request) :
    deleteTargets (xs ++ ys) = deleteTargets xs ++ deleteTargets ys := by
  induction xs with
  | nil => rfl
  | cons x xs ih => cases x <;> simp [deleteTargets, ih]

/-- The function `populateConfiguration` of the dead-letter-queue test issues no call. -/
theorem populateConfiguration_calls (env : Env) (g : DeadLetterQueue.Config) (w : World) :
    (DeadLetterQueue.populateConfiguration env g w).2.calls = w.calls := by
  simp only [DeadLetterQueue.populateConfiguration]
  cases env.readFile DeadLetterQueue.configFileName with
  | error e => rfl
  | ok text =>
    simp only []
    rcases hp : env.unmarshalDeadLetter text g with ⟨g1, _ | e⟩
    · rfl
    · rfl

/-- The dead-letter-queue `TestQueue`, once the configuration is read and the session made,
begins with `CreateQueue` for the configured queue name. -/
theorem deadLetterTest_begins_with_create (env : Env) (w w0 : World) (sess : Session)
    (cfg : DeadLetterQueue.Config)
    (hcfg : DeadLetterQueue.populateConfiguration env {} w = (.ret (cfg, none), w0))
    (hs : env.newSession = .ok sess) :
    ∃ cs, (DeadLetterQueue.TestQueue env w).2.calls =
      w.calls ++ .CreateQueue (createQueueInput cfg.QueueName) :: cs := by
  have hw0 : w0.calls = w.calls := by
    have := populateConfiguration_calls env {} w
    rw [hcfg] at this
    exact this
  unfold DeadLetterQueue.TestQueue
  rw [M.bind_run, hcfg]
  simp only []
  rw [M.bind_run, hs, sessionMust_ok_run]
  simp only []
  unfold DeadLetterQueue.createQueue sqs.CreateQueue
  rw [M.bind_assoc_run, M.bind_run, remote_run]
  simp only []
  refine Appends.run_after ?_ _ _ _ (by simp [hw0, createQueueInput, awsString])
  refine Appends.bind ?_ fun x => ?_
  · cases env.CreateQueue w0.calls _
    · exact Appends.pure _
    · exact Appends.bind (Appends.liftP _) fun _ => Appends.pure _
  · repeat' first
      | exact Appends.pure _
      | exact Appends.tLog _
      | exact Appends.tFatal _
      | exact Appends.liftP _
      | exact Appends.remote _ _
      | exact Appends.createQueue _ _ _
      | exact Appends.deleteQueue _ _ _
      | exact Appends.configure _ _ _ _
      | refine Appends.bind ?_ (fun _ => ?_)
      | split

theorem Appends.run_after_two {α : Type} {m : M α} (hm : Appends m) (w : World)
    (before : List Request) (c d : Request) (h : w.calls = before ++ [c, d]) :
    ∃ cs, (m w).2.calls = before ++ c :: d :: cs := by
  obtain ⟨cs, hcs⟩ := hm w
  exact ⟨cs, by rw [hcs, h]; simp⟩

/-- The dead-letter-queue `TestQueue`, once its first `CreateQueue` has answered a URL, goes
on with `CreateQueue` for the configured dead-letter-queue name. -/
theorem deadLetterTest_second_create (env : Env) (w w0 : World) (sess : Session)
    (cfg : DeadLetterQueue.Config) (u1 : String)
    (hcfg : DeadLetterQueue.populateConfiguration env {} w = (.ret (cfg, none), w0))
    (hs : env.newSession = .ok sess)
    (hc1 : env.CreateQueue w.calls (createQueueInput cfg.QueueName) = .ok ⟨some u1⟩) :
    ∃ cs, (DeadLetterQueue.TestQueue env w).2.calls =
      w.calls ++ .CreateQueue (createQueueInput cfg.QueueName) ::
        .CreateQueue (createQueueInput cfg.DlQueueName) :: cs := by
  have hw0 : w0.calls = w.calls := by
    have := populateConfiguration_calls env {} w
    rw [hcfg] at this
    exact this
  simp only [createQueueInput] at hc1
  rw [← hw0] at hc1
  unfold DeadLetterQueue.TestQueue
  rw [M.bind_run, hcfg]
  simp only []
  rw [M.bind_run, hs, sessionMust_ok_run]
  simp only []
  unfold DeadLetterQueue.createQueue sqs.CreateQueue
  rw [M.bind_assoc_run, M.bind_run, remote_run]
  simp only [awsString, hc1]
  rw [M.bind_assoc_run, M.bind_run]
  simp only [deref, liftP_ok_run]
  rw [M.bind_run, M.pure_run]
  simp only []
  rw [M.bind_run, tLog_run]
  simp only []
  rw [M.bind_assoc_run, M.bind_run, remote_run]
  simp only []
  refine Appends.run_after_two ?_ _ _ _ _ (by simp [hw0, createQueueInput])
  refine Appends.bind ?_ fun x => ?_
  · cases env.CreateQueue _ _
    · exact Appends.pure _
    · exact Appends.bind (Appends.liftP _) fun _ => Appends.pure _
  · repeat' first
      | exact Appends.pure _
      | exact Appends.tLog _
      | exact Appends.tFatal _
      | exact Appends.liftP _
      | exact Appends.remote _ _
      | exact Appends.createQueue _ _ _
      | exact Appends.deleteQueue _ _ _
      | exact Appends.configure _ _ _ _
      | refine Appends.bind ?_ (fun _ => ?_)
      | split

theorem Sample.uuid_injective : Function.Injective Sample.uuid := by
  intro n m h
  have h2 := congrArg (fun s : String => s.data.length) h
  simpa [Sample.uuid] using h2

theorem queue_names_differ (s : String) : "myqueue-" ++ s ≠ "mydlqueue-" ++ s := by
  intro h
  have h2 := congrArg (fun x : String => x.data[2]?) h
  have h3 : ("myqueue-" ++ s).data = 'm' :: 'y' :: 'q' :: ("ueue-".data ++ s.data) := by
    simp [String.data_append]
  have h4 : ("mydlqueue-" ++ s).data = 'm' :: 'y' :: 'd' :: ("lqueue-".data ++ s.data) := by
    simp [String.data_append]
  simp only [h3, h4, List.getElem?_cons_succ, List.getElem?_cons_zero, Option.some.injEq] at h2
  exact absurd h2 (by decide)

theorem append_left_cancel (p a b : String) (h : p ++ a = p ++ b) : a = b := by
  have h2 := congrArg String.data h
  simp only [String.data_append] at h2
  exact String.ext (List.append_cancel_left h2)

theorem append_ne_empty (p s : String) (hp : p ≠ "") : p ++ s ≠ "" := by
  intro h
  have h2 := congrArg String.data h
  simp only [String.data_append] at h2
  have h3 : p.data = [] := (List.append_eq_nil.mp h2).1
  exact hp (String.ext h3)

/-! ## The ARN of a queue URL -/

/-- C1: for a region `R` without `/` and `.`, an account id `A` without `/` and a queue
name `N` without `/`, `getQueueArn` applied to the URL
`https://sqs.R.amazonaws.com/A/N` returns `arn:aws:sqs:R:A:N` and a nil error. -/
theorem getQueueArn_documented_url (R A N : String)
    (hR : '/' ∉ R.data ∧ '.' ∉ R.data) (hA : '/' ∉ A.data) (hN : '/' ∉ N.data) :
    DeadLetterQueue.getQueueArn ("https://sqs." ++ R ++ ".amazonaws.com/" ++ A ++ "/" ++ N) =
      .ok ("arn:aws:sqs:" ++ R ++ ":" ++ A ++ ":" ++ N, none) := by
  have hhost : '/' ∉ ("sqs" ++ String.singleton '.' ++
      (R ++ String.singleton '.' ++ "amazonaws.com")).data := by
    simp [String.singleton, hR.1]
  rw [documented_url_shape, DeadLetterQueue.getQueueArn]
  rw [split_append_sep _ _ _ (by decide), split_append_sep _ _ _ (by decide),
    split_append_sep _ _ _ hhost, split_append_sep _ _ _ hA, split_of_not_mem _ _ hN]
  simp only [index, List.getElem?_cons_succ, List.getElem?_cons_zero, bind, Except.bind]
  rw [split_append_sep _ _ _ (by decide), split_append_sep _ _ _ hR.2]
  simp only [List.getElem?_cons_succ, List.getElem?_cons_zero, pure, Except.pure]
  rfl

theorem getQueueArn_documented_url_witness :
    (('/' ∉ "us-west-2".data ∧ '.' ∉ "us-west-2".data) ∧ '/' ∉ "123456789012".data ∧
      '/' ∉ "MyGroovyQueue".data) ∧
    DeadLetterQueue.getQueueArn
        ("https://sqs." ++ "us-west-2" ++ ".amazonaws.com/" ++ "123456789012" ++ "/" ++
          "MyGroovyQueue") =
      .ok ("arn:aws:sqs:" ++ "us-west-2" ++ ":" ++ "123456789012" ++ ":" ++ "MyGroovyQueue",
        none) :=
  ⟨by decide, getQueueArn_documented_url "us-west-2" "123456789012" "MyGroovyQueue"
    (by decide) (by decide) (by decide)⟩

/-! ## The redrive request -/

/-- C2: whatever the ARN `a` and the queue URL `u`, `ConfigureDeadLetterQueue` issues exactly
one remote call, a `SetQueueAttributes` on `u` whose attribute map has the single key
`RedrivePolicy`, its value being the JSON encoding `b` of the object with the two members
`deadLetterTargetArn = a` and `maxReceiveCount = "10"`. -/
theorem ConfigureDeadLetterQueue_request (env : Env) (sess : Session) (a u b : String)
    (w : World)
    (hb : env.jsonMarshal [("deadLetterTargetArn", a), ("maxReceiveCount", "10")] = .ok b) :
    (DeadLetterQueue.ConfigureDeadLetterQueue env sess a u w).2.calls =
      w.calls ++ [Request.SetQueueAttributes
        { QueueUrl := some u, Attributes := [("RedrivePolicy", some b)] }] := by
  simp only [DeadLetterQueue.ConfigureDeadLetterQueue, hb, M.bind_run, sqs.SetQueueAttributes,
    remote_run]
  cases env.SetQueueAttributes w.calls _ <;> rfl

theorem ConfigureDeadLetterQueue_request_witness :
    Sample.env.jsonMarshal
        [("deadLetterTargetArn", "arn:aws:sqs:us-west-2:123456789012:dlq1"),
          ("maxReceiveCount", "10")] =
      .ok ("\x7b\x22deadLetterTargetArn\x22:\x22arn:aws:sqs:us-west-2:123456789012:dlq1\x22," ++
        "\x22maxReceiveCount\x22:\x2210\x22\x7d") ∧
    (DeadLetterQueue.ConfigureDeadLetterQueue Sample.env ⟨some "us-west-2"⟩
        "arn:aws:sqs:us-west-2:123456789012:dlq1" (Sample.queueURL "q1") {}).2.calls =
      [] ++ [Request.SetQueueAttributes
        { QueueUrl := some (Sample.queueURL "q1")
          Attributes := [("RedrivePolicy",
            some ("\x7b\x22deadLetterTargetArn\x22:" ++
              "\x22arn:aws:sqs:us-west-2:123456789012:dlq1\x22," ++
              "\x22maxReceiveCount\x22:\x2210\x22\x7d"))] }] :=
  ⟨rfl, ConfigureDeadLetterQueue_request Sample.env ⟨some "us-west-2"⟩ _ _ _ {} rfl⟩

/-! ## Generated defaults of the configuration -/

/-- C3 (amended): after a successful parse, `populateConfiguration` of the dead-letter-queue
test keeps a non-empty `QueueName` and `DlQueueName` and replaces an empty one by `myqueue-`
resp. `mydlqueue-` followed by the drawn token, and returns nil. `populateConfig` of the alarm
test never changes a non-empty `AlarmName`; whenever it returns nil an empty `AlarmName` has
become `Alarm70-` followed by the drawn token; and it does return nil, with `InstanceName`
and `InstanceID` untouched, when both of them are non-empty. -/
theorem populate_defaults (env : Env) (sess : Session) (w : World) (text q d : String)
    (g0 : DeadLetterQueue.Config) (c a0 : DeleteAlarm.Config)
    (hread : env.readFile "config.json" = .ok text)
    (hq : env.unmarshalDeadLetter text g0 = (⟨q, d⟩, none))
    (ha : env.unmarshalAlarm text a0 = (c, none)) :
    DeadLetterQueue.populateConfiguration env g0 w =
        (.ret (⟨if q = "" then "myqueue-" ++ env.uuid w.uuids else q,
                if d = "" then "mydlqueue-" ++ env.uuid w.uuids else d⟩, none),
          { w with uuids := w.uuids + 1 }) ∧
    (∀ g e w1, DeleteAlarm.populateConfig env sess a0 w = (.ret (g, e), w1) →
        (c.AlarmName ≠ "" → g.AlarmName = c.AlarmName) ∧
        (e = none → c.AlarmName = "" → g.AlarmName = "Alarm70-" ++ env.uuid w.uuids)) ∧
    (c.InstanceName ≠ "" → c.InstanceID ≠ "" →
        (DeleteAlarm.populateConfig env sess a0 w).1 =
          .ret (⟨c.InstanceName, c.InstanceID,
            if c.AlarmName = "" then "Alarm70-" ++ env.uuid w.uuids else c.AlarmName⟩,
            none)) := by
  refine ⟨?_, ?_, ?_⟩
  · simp only [DeadLetterQueue.populateConfiguration, DeadLetterQueue.configFileName, hread, hq,
      M.bind_run, uuidNew_run, M.pure_run]
    by_cases h1 : q = "" <;> by_cases h2 : d = "" <;> simp [h1, h2]
  · intro g e w1
    simp only [DeleteAlarm.populateConfig, DeleteAlarm.configFileName, hread, ha, M.bind_run]
    by_cases hi : c.InstanceName = "" ∨ c.InstanceID = ""
    · simp only [hi, if_true, M.bind_run]
      have hu := getEc2Info_uuids env sess w
      rcases hrun : DeleteAlarm.getEc2Info env sess w with ⟨out, w2⟩
      rw [hrun] at hu
      simp only at hu
      rcases out with ⟨first, second, err⟩ | text | _ | code
      · cases err with
        | some err =>
          simp only [M.pure_run]
          intro h
          simp only [Prod.mk.injEq, Outcome.ret.injEq] at h
          obtain ⟨⟨rfl, rfl⟩, rfl⟩ := h
          simp
        | none =>
          by_cases hn : c.AlarmName = ""
          · simp only [M.pure_run, hn, if_true, M.bind_run, uuidNew_run, tLog_run]
            intro h
            simp only [Prod.mk.injEq, Outcome.ret.injEq] at h
            obtain ⟨⟨rfl, rfl⟩, rfl⟩ := h
            simp [hn, hu]
          · simp only [M.pure_run, hn, if_false, M.bind_run, tLog_run]
            intro h
            simp only [Prod.mk.injEq, Outcome.ret.injEq] at h
            obtain ⟨⟨rfl, rfl⟩, rfl⟩ := h
            simp [hn]
      · simp
      · simp
      · simp
    · simp only [hi, if_false, M.bind_run, M.pure_run]
      by_cases hn : c.AlarmName = ""
      · simp only [hn, if_true, M.bind_run, uuidNew_run, tLog_run, M.pure_run]
        intro h
        simp only [Prod.mk.injEq, Outcome.ret.injEq] at h
        obtain ⟨⟨rfl, rfl⟩, rfl⟩ := h
        simp [hn]
      · simp only [hn, if_false, M.bind_run, tLog_run, M.pure_run]
        intro h
        simp only [Prod.mk.injEq, Outcome.ret.injEq] at h
        obtain ⟨⟨rfl, rfl⟩, rfl⟩ := h
        simp [hn]
  · intro h1 h2
    simp only [DeleteAlarm.populateConfig, DeleteAlarm.configFileName, hread, ha, M.bind_run,
      h1, h2, or_self, if_false, M.pure_run]
    by_cases hn : c.AlarmName = ""
    · simp only [hn, if_true, M.bind_run, uuidNew_run, tLog_run, M.pure_run]
    · simp only [hn, if_false, M.bind_run, tLog_run, M.pure_run]

theorem populate_defaults_witness :
    ((Sample.queueEnv "" "dlq1").readFile "config.json" = .ok (Sample.configOf "" "dlq1") ∧
      (Sample.queueEnv "" "dlq1").unmarshalDeadLetter (Sample.configOf "" "dlq1") {} =
        (⟨"", "dlq1"⟩, none) ∧
      (Sample.queueEnv "" "dlq1").unmarshalAlarm (Sample.configOf "" "dlq1") {} = ({}, none)) ∧
    DeadLetterQueue.populateConfiguration (Sample.queueEnv "" "dlq1") {} {} =
      (.ret (⟨if "" = "" then "myqueue-" ++ (Sample.queueEnv "" "dlq1").uuid 0 else "",
              if "dlq1" = "" then "mydlqueue-" ++ (Sample.queueEnv "" "dlq1").uuid 0
              else "dlq1"⟩, none),
        { uuids := 1 }) :=
  ⟨⟨rfl, rfl, rfl⟩,
    (populate_defaults (Sample.queueEnv "" "dlq1") Sample.sess {} (Sample.configOf "" "dlq1")
      "" "dlq1" {} {} {} rfl rfl rfl).1⟩

/-- C3 (as stated, refuted): the configuration file gives the instance name `web-0` and the
alarm name `cpu-alarm` but no instance ID; `populateConfig` returns nil with `InstanceName`
overwritten by what `getEc2Info` found. And with a blank configuration and a failing
`DescribeInstances`, `populateConfig` returns that error and `AlarmName` is still empty. -/
theorem populateConfig_overwrites_instance_name :
    (Sample.alarmEnv ⟨"web-0", "", "cpu-alarm"⟩).unmarshalAlarm
        (Sample.alarmConfigOf ⟨"web-0", "", "cpu-alarm"⟩) {} =
      (⟨"web-0", "", "cpu-alarm"⟩, none) ∧
    (DeleteAlarm.populateConfig (Sample.alarmEnv ⟨"web-0", "", "cpu-alarm"⟩)
        Sample.sess {} {}).1 =
      .ret (⟨"i-0123456789abcdef0", "web-1", "cpu-alarm"⟩, none) ∧
    (DeleteAlarm.populateConfig Sample.describeFails Sample.sess {} {}).1 =
      .ret (⟨"", "", ""⟩, some ⟨"RequestExpired"⟩) := by
  decide

/-! ## Teardown -/

/-- C4 (amended): in the dead-letter-queue `TestQueue`, when both `CreateQueue` calls, the
ARN derivation, `ConfigureDeadLetterQueue` and the deletion of the first queue succeed, and
the two `CreateQueue` calls answered different URLs `u1` and `u2`, the calls issued end with
`DeleteQueue u1`, `DeleteQueue u2`, whatever the second deletion answers: each of the two
created queues is the target of exactly one `DeleteQueue` call. -/
theorem created_queues_deleted_once (env : Env) (w w0 : World) (sess : Session)
    (cfg : DeadLetterQueue.Config) (u1 u2 arn b : String)
    (hcfg : DeadLetterQueue.populateConfiguration env {} w = (.ret (cfg, none), w0))
    (hs : env.newSession = .ok sess)
    (hc1 : env.CreateQueue w.calls (createQueueInput cfg.QueueName) = .ok ⟨some u1⟩)
    (hc2 : env.CreateQueue (w.calls ++ [.CreateQueue (createQueueInput cfg.QueueName)])
      (createQueueInput cfg.DlQueueName) = .ok ⟨some u2⟩)
    (hne : u1 ≠ u2)
    (harn : DeadLetterQueue.getQueueArn u2 = .ok (arn, none))
    (hb : env.jsonMarshal (redrivePolicy arn) = .ok b)
    (hset : env.SetQueueAttributes
      (w.calls ++ [.CreateQueue (createQueueInput cfg.QueueName),
        .CreateQueue (createQueueInput cfg.DlQueueName)]) (redriveInput u1 b) = .ok ())
    (hdel : env.DeleteQueue
      (w.calls ++ [.CreateQueue (createQueueInput cfg.QueueName),
        .CreateQueue (createQueueInput cfg.DlQueueName),
        .SetQueueAttributes (redriveInput u1 b)]) ⟨some u1⟩ = .ok ()) :
    ∃ cs, (DeadLetterQueue.TestQueue env w).2.calls = w.calls ++ cs ∧
      cs = [.CreateQueue (createQueueInput cfg.QueueName),
        .CreateQueue (createQueueInput cfg.DlQueueName),
        .SetQueueAttributes (redriveInput u1 b),
        .DeleteQueue ⟨some u1⟩, .DeleteQueue ⟨some u2⟩] ∧
      (deleteTargets cs).count (some u1) = 1 ∧
      (deleteTargets cs).count (some u2) = 1 := by
  have hw0 : w0.calls = w.calls := by
    have := populateConfiguration_calls env {} w
    rw [hcfg] at this
    exact this
  refine ⟨_, ?_, rfl, ?_, ?_⟩
  · simp only [createQueueInput, redriveInput, redrivePolicy] at hc1 hc2 hb hset hdel
    rw [← hw0] at hc1 hc2 hset hdel
    simp only [DeadLetterQueue.TestQueue, M.bind_run, hcfg, hs, sessionMust_ok_run,
      DeadLetterQueue.createQueue, sqs.CreateQueue, remote_run, awsString, hc1, hc2, deref,
      liftP_ok_run, M.pure_run, tLog_run, harn, DeadLetterQueue.ConfigureDeadLetterQueue, hb,
      sqs.SetQueueAttributes, sqs.QueueAttributeNameRedrivePolicy, List.append_assoc,
      List.singleton_append, List.cons_append, List.nil_append, hset,
      DeadLetterQueue.deleteQueue, sqs.DeleteQueue, hdel]
    rw [← hw0]
    simp only [createQueueInput, redriveInput]
    cases env.DeleteQueue _ _ <;> rfl
  · have h21 : ¬ (u2 = u1) := fun h => hne h.symm
    simp [deleteTargets, List.count_cons, h21]
  · simp [deleteTargets, List.count_cons, hne]

theorem created_queues_deleted_once_witness :
    Sample.queueURL "myqueue-a" ≠ Sample.queueURL "mydlqueue-a" ∧
    ∃ cs, (DeadLetterQueue.TestQueue (Sample.queueEnv "" "") {}).2.calls = [] ++ cs ∧
      cs = [.CreateQueue (createQueueInput "myqueue-a"),
        .CreateQueue (createQueueInput "mydlqueue-a"),
        .SetQueueAttributes (redriveInput (Sample.queueURL "myqueue-a")
          (Sample.marshal (redrivePolicy "arn:aws:sqs:us-west-2:123456789012:mydlqueue-a"))),
        .DeleteQueue ⟨some (Sample.queueURL "myqueue-a")⟩,
        .DeleteQueue ⟨some (Sample.queueURL "mydlqueue-a")⟩] ∧
      (deleteTargets cs).count (some (Sample.queueURL "myqueue-a")) = 1 ∧
      (deleteTargets cs).count (some (Sample.queueURL "mydlqueue-a")) = 1 :=
  ⟨by decide,
    created_queues_deleted_once (Sample.queueEnv "" "") {} { uuids := 1 } Sample.sess
      ⟨"myqueue-a", "mydlqueue-a"⟩ (Sample.queueURL "myqueue-a")
      (Sample.queueURL "mydlqueue-a") "arn:aws:sqs:us-west-2:123456789012:mydlqueue-a"
      (Sample.marshal (redrivePolicy "arn:aws:sqs:us-west-2:123456789012:mydlqueue-a"))
      rfl rfl rfl rfl (by decide) rfl rfl rfl rfl⟩

/-- C4 (as stated, refuted): with a configuration naming `q1` and `dlq1`, when
`SetQueueAttributes` is refused the test stops with both queues created and no `DeleteQueue`
issued; when the deletion of `q1` fails, `dlq1` is never the target of a `DeleteQueue`; when
`dlq1` cannot be created, or the URL of `dlq1` is too short for `getQueueArn`, `q1` is left
as well; and with a configuration that gives both queues the name `q1`, every call succeeds
and the one queue is the target of two `DeleteQueue` calls. -/
theorem queues_left_behind_on_failure :
    ((DeadLetterQueue.TestQueue Sample.configureFails {}).1 = .failNow ∧
      (DeadLetterQueue.TestQueue Sample.configureFails {}).2.calls =
        [.CreateQueue (createQueueInput "q1"), .CreateQueue (createQueueInput "dlq1"),
          .SetQueueAttributes (redriveInput (Sample.queueURL "q1")
            (Sample.marshal (redrivePolicy "arn:aws:sqs:us-west-2:123456789012:dlq1")))]) ∧
    ((DeadLetterQueue.TestQueue Sample.firstDeleteFails {}).1 = .failNow ∧
      createdNames (DeadLetterQueue.TestQueue Sample.firstDeleteFails {}).2.calls =
        [some "q1", some "dlq1"] ∧
      deleteTargets (DeadLetterQueue.TestQueue Sample.firstDeleteFails {}).2.calls =
        [some (Sample.queueURL "q1")]) ∧
    ((DeadLetterQueue.TestQueue Sample.secondCreateFails {}).1 = .failNow ∧
      (DeadLetterQueue.TestQueue Sample.secondCreateFails {}).2.calls =
        [.CreateQueue (createQueueInput "q1"), .CreateQueue (createQueueInput "dlq1")]) ∧
    ((DeadLetterQueue.TestQueue Sample.shortURL {}).1 = .panic "index out of range" ∧
      (DeadLetterQueue.TestQueue Sample.shortURL {}).2.calls =
        [.CreateQueue (createQueueInput "q1"), .CreateQueue (createQueueInput "dlq1")]) ∧
    ((DeadLetterQueue.TestQueue (Sample.queueEnv "q1" "q1") {}).1 = .ret () ∧
      createdNames (DeadLetterQueue.TestQueue (Sample.queueEnv "q1" "q1") {}).2.calls =
        [some "q1", some "q1"] ∧
      deleteTargets (DeadLetterQueue.TestQueue (Sample.queueEnv "q1" "q1") {}).2.calls =
        [some (Sample.queueURL "q1"), some (Sample.queueURL "q1")]) := by
  decide

/-! ## Named queues -/

/-- C5 (amended): with a configuration file that gives the non-empty names `q` and `d`, the
dead-letter-queue `TestQueue` does not reuse queues of these names: once the session is
made its first remote call is `CreateQueue` for `q`, whatever the calls answer, and when
that call answers a URL the second remote call is `CreateQueue` for `d`. -/
theorem deadLetterTest_creates_named_queues (env : Env) (w : World) (sess : Session)
    (text q d : String)
    (hread : env.readFile "config.json" = .ok text)
    (hs : env.newSession = .ok sess)
    (hqd : env.unmarshalDeadLetter text {} = (⟨q, d⟩, none))
    (hq : q ≠ "") (hd : d ≠ "") :
    (∃ cs, (DeadLetterQueue.TestQueue env w).2.calls =
      w.calls ++ .CreateQueue (createQueueInput q) :: cs) ∧
    (∀ u1, env.CreateQueue w.calls (createQueueInput q) = .ok ⟨some u1⟩ →
      ∃ cs, (DeadLetterQueue.TestQueue env w).2.calls =
        w.calls ++ .CreateQueue (createQueueInput q) :: .CreateQueue (createQueueInput d) ::
          cs) := by
  have hcfg : DeadLetterQueue.populateConfiguration env {} w =
      (.ret (⟨q, d⟩, none), { w with uuids := w.uuids + 1 }) := by
    simp only [DeadLetterQueue.populateConfiguration, DeadLetterQueue.configFileName, hread,
      hqd, M.bind_run, uuidNew_run, M.pure_run, hq, hd, if_false]
  exact ⟨deadLetterTest_begins_with_create env w _ sess _ hcfg hs,
    fun u1 hc1 => deadLetterTest_second_create env w _ sess _ u1 hcfg hs hc1⟩

theorem deadLetterTest_creates_named_queues_witness :
    (Sample.env.readFile "config.json" = .ok Sample.configText ∧
      Sample.env.newSession = .ok Sample.sess ∧
      Sample.env.unmarshalDeadLetter Sample.configText {} = (⟨"q1", "dlq1"⟩, none) ∧
      "q1" ≠ "" ∧ "dlq1" ≠ "" ∧
      Sample.env.CreateQueue [] (createQueueInput "q1") = .ok ⟨some (Sample.queueURL "q1")⟩) ∧
    ∃ cs, (DeadLetterQueue.TestQueue Sample.env {}).2.calls =
      [] ++ .CreateQueue (createQueueInput "q1") :: .CreateQueue (createQueueInput "dlq1") ::
        cs :=
  ⟨⟨rfl, rfl, rfl, by decide, by decide, rfl⟩,
    (deadLetterTest_creates_named_queues Sample.env {} Sample.sess Sample.configText "q1"
      "dlq1" rfl rfl rfl (by decide) (by decide)).2 (Sample.queueURL "q1") rfl⟩

/-- C5 (as stated, refuted): the configuration file names both queues, `q1` and `dlq1`, and
the dead-letter-queue `TestQueue` creates both and deletes both. -/
theorem named_queues_created_anyway :
    Sample.env.unmarshalDeadLetter Sample.configText {} = (⟨"q1", "dlq1"⟩, none) ∧
    createdNames (DeadLetterQueue.TestQueue Sample.env {}).2.calls = [some "q1", some "dlq1"] ∧
    deleteTargets (DeadLetterQueue.TestQueue Sample.env {}).2.calls =
      [some (Sample.queueURL "q1"), some (Sample.queueURL "dlq1")] := by
  decide

/-! ## Operation wrappers -/

/-- C6 (amended): each operation wrapper invokes its SDK client method exactly once,
whatever its arguments, and hands the outcome on: on an error `e` of the method,
`GetQueueURL` returns `("", e)` and `CreateCustomMetric` and `ConfigureDeadLetterQueue`
return `e`; on success the latter two return nil, and `GetQueueURL` returns the `QueueUrl`
of the response with nil when there is one and panics on the nil pointer when there is
none. The wrapper adds no validation and no retry of its own: the requests that reach the
remote API during the wrapper are those the SDK client sends for that one invocation, be
they none, one or several. (For `ConfigureDeadLetterQueue`, `b` is the JSON encoding of the
policy.) -/
theorem wrappers_make_one_call (env : Env) (sess : Session) (w : World)
    (queueName : Option String) (namespace_ metricName unit : String) (value : Float64)
    (dimensionName dimensionValue a u b : String)
    (hb : env.jsonMarshal (redrivePolicy a) = .ok b) :
    ((GetQueueURL.GetQueueURL env sess queueName w).2 =
        { w with calls := w.calls ++ [.GetQueueUrl ⟨queueName⟩] } ∧
      (∀ e, env.GetQueueUrl w.calls ⟨queueName⟩ = .error e →
        (GetQueueURL.GetQueueURL env sess queueName w).1 = .ret ("", some e)) ∧
      (∀ v, env.GetQueueUrl w.calls ⟨queueName⟩ = .ok ⟨some v⟩ →
        (GetQueueURL.GetQueueURL env sess queueName w).1 = .ret (v, none)) ∧
      (env.GetQueueUrl w.calls ⟨queueName⟩ = .ok ⟨none⟩ →
        (GetQueueURL.GetQueueURL env sess queueName w).1 =
          .panic "invalid memory address or nil pointer dereference") ∧
      (∀ cs, (GetQueueURL.GetQueueURL env sess queueName w).2.calls = w.calls ++ cs →
        sentFrom env w.calls cs = env.wire w.calls (.GetQueueUrl ⟨queueName⟩))) ∧
    ((CreateCustomMetric.CreateCustomMetric env sess namespace_ metricName unit value
          dimensionName dimensionValue w).2 =
        { w with calls := w.calls ++ [.PutMetricData
          (metricInput namespace_ metricName unit value dimensionName dimensionValue)] } ∧
      (∀ e, env.PutMetricData w.calls
          (metricInput namespace_ metricName unit value dimensionName dimensionValue) =
            .error e →
        (CreateCustomMetric.CreateCustomMetric env sess namespace_ metricName unit value
          dimensionName dimensionValue w).1 = .ret (some e)) ∧
      (env.PutMetricData w.calls
          (metricInput namespace_ metricName unit value dimensionName dimensionValue) =
            .ok () →
        (CreateCustomMetric.CreateCustomMetric env sess namespace_ metricName unit value
          dimensionName dimensionValue w).1 = .ret none) ∧
      (∀ cs, (CreateCustomMetric.CreateCustomMetric env sess namespace_ metricName unit value
          dimensionName dimensionValue w).2.calls = w.calls ++ cs →
        sentFrom env w.calls cs = env.wire w.calls (.PutMetricData
          (metricInput namespace_ metricName unit value dimensionName dimensionValue)))) ∧
    ((DeadLetterQueue.ConfigureDeadLetterQueue env sess a u w).2 =
        { w with calls := w.calls ++ [.SetQueueAttributes (redriveInput u b)] } ∧
      (∀ e, env.SetQueueAttributes w.calls (redriveInput u b) = .error e →
        (DeadLetterQueue.ConfigureDeadLetterQueue env sess a u w).1 = .ret (some e)) ∧
      (env.SetQueueAttributes w.calls (redriveInput u b) = .ok () →
        (DeadLetterQueue.ConfigureDeadLetterQueue env sess a u w).1 = .ret none) ∧
      (∀ cs, (DeadLetterQueue.ConfigureDeadLetterQueue env sess a u w).2.calls =
          w.calls ++ cs →
        sentFrom env w.calls cs = env.wire w.calls (.SetQueueAttributes (redriveInput u b)))) := by
  have hG : (GetQueueURL.GetQueueURL env sess queueName w).2 =
      { w with calls := w.calls ++ [.GetQueueUrl ⟨queueName⟩] } := by
    simp only [GetQueueURL.GetQueueURL, M.bind_run, sqs.GetQueueUrl, remote_run]
    cases env.GetQueueUrl w.calls ⟨queueName⟩ with
    | error e => rfl
    | ok result => rcases result with ⟨_ | v⟩ <;> rfl
  have hM : (CreateCustomMetric.CreateCustomMetric env sess namespace_ metricName unit value
      dimensionName dimensionValue w).2 =
        { w with calls := w.calls ++ [.PutMetricData
          (metricInput namespace_ metricName unit value dimensionName dimensionValue)] } := by
    simp only [CreateCustomMetric.CreateCustomMetric, M.bind_run, cloudwatch.PutMetricData,
      remote_run, metricInput, awsString, awsFloat64]
    cases env.PutMetricData w.calls _ <;> rfl
  have hC : (DeadLetterQueue.ConfigureDeadLetterQueue env sess a u w).2 =
      { w with calls := w.calls ++ [.SetQueueAttributes (redriveInput u b)] } := by
    have hb2 := hb
    simp only [redrivePolicy] at hb2
    simp only [DeadLetterQueue.ConfigureDeadLetterQueue, hb2, M.bind_run,
      sqs.SetQueueAttributes, remote_run, redriveInput, awsString,
      sqs.QueueAttributeNameRedrivePolicy]
    cases env.SetQueueAttributes w.calls _ <;> rfl
  refine ⟨⟨hG, ?_, ?_, ?_, ?_⟩, ⟨hM, ?_, ?_, ?_⟩, ⟨hC, ?_, ?_, ?_⟩⟩
  · intro e he
    simp only [GetQueueURL.GetQueueURL, M.bind_run, sqs.GetQueueUrl, remote_run, he, M.pure_run]
  · intro v hv
    simp only [GetQueueURL.GetQueueURL, M.bind_run, sqs.GetQueueUrl, remote_run, hv, deref,
      liftP_ok_run, M.pure_run]
  · intro hv
    simp only [GetQueueURL.GetQueueURL, M.bind_run, sqs.GetQueueUrl, remote_run, hv, deref,
      liftP_error_run]
  · intro cs hcs
    rw [hG] at hcs
    have hone := List.append_cancel_left hcs
    subst hone
    simp [sentFrom]
  · intro e he
    simp only [metricInput] at he
    simp only [CreateCustomMetric.CreateCustomMetric, M.bind_run, cloudwatch.PutMetricData,
      remote_run, awsString, awsFloat64, he, M.pure_run]
  · intro he
    simp only [metricInput] at he
    simp only [CreateCustomMetric.CreateCustomMetric, M.bind_run, cloudwatch.PutMetricData,
      remote_run, awsString, awsFloat64, he, M.pure_run]
  · intro cs hcs
    rw [hM] at hcs
    have hone := List.append_cancel_left hcs
    subst hone
    simp [sentFrom]
  · intro e he
    simp only [redrivePolicy] at hb
    simp only [redriveInput] at he
    simp only [DeadLetterQueue.ConfigureDeadLetterQueue, hb, M.bind_run, sqs.SetQueueAttributes,
      remote_run, awsString, sqs.QueueAttributeNameRedrivePolicy, he, M.pure_run]
  · intro he
    simp only [redrivePolicy] at hb
    simp only [redriveInput] at he
    simp only [DeadLetterQueue.ConfigureDeadLetterQueue, hb, M.bind_run, sqs.SetQueueAttributes,
      remote_run, awsString, sqs.QueueAttributeNameRedrivePolicy, he, M.pure_run]
  · intro cs hcs
    rw [hC] at hcs
    have hone := List.append_cancel_left hcs
    subst hone
    simp [sentFrom]

theorem wrappers_make_one_call_witness :
    Sample.env.jsonMarshal (redrivePolicy "arn:aws:sqs:us-west-2:123456789012:dlq1") =
      .ok (Sample.marshal (redrivePolicy "arn:aws:sqs:us-west-2:123456789012:dlq1")) ∧
    (GetQueueURL.GetQueueURL Sample.env Sample.sess (some "q1") {}).2 =
      { calls := [] ++ [.GetQueueUrl ⟨some "q1"⟩] } ∧
    (CreateCustomMetric.CreateCustomMetric Sample.env Sample.sess "Site" "PageViews" "Count"
        ⟨0x3FF0000000000000⟩ "PageURL" "index.html" {}).2 =
      { calls := [] ++ [.PutMetricData
        (metricInput "Site" "PageViews" "Count" ⟨0x3FF0000000000000⟩ "PageURL"
          "index.html")] } ∧
    (DeadLetterQueue.ConfigureDeadLetterQueue Sample.env Sample.sess
        "arn:aws:sqs:us-west-2:123456789012:dlq1" (Sample.queueURL "q1") {}).2 =
      { calls := [] ++ [.SetQueueAttributes (redriveInput (Sample.queueURL "q1")
        (Sample.marshal (redrivePolicy "arn:aws:sqs:us-west-2:123456789012:dlq1")))] } :=
  have h := wrappers_make_one_call Sample.env Sample.sess {} (some "q1") "Site" "PageViews"
    "Count" ⟨0x3FF0000000000000⟩ "PageURL" "index.html"
    "arn:aws:sqs:us-west-2:123456789012:dlq1" (Sample.queueURL "q1")
    (Sample.marshal (redrivePolicy "arn:aws:sqs:us-west-2:123456789012:dlq1")) rfl
  ⟨rfl, h.1.1, h.2.1.1, h.2.2.1⟩

/-- C6 (as stated, refuted): with a client that behaves as the SDK's does,
`CreateCustomMetric` with empty strings and `GetQueueURL` with a nil queue name fail with
the client's `InvalidParameter` while no request has reached the remote API, and a
`ConfigureDeadLetterQueue` that fails on status 500 has had its request sent four times;
and when `GetQueueUrl` succeeds with a response without `QueueUrl`, `GetQueueURL` does not
return but panics. -/
theorem wrapper_fails_without_request :
    (CreateCustomMetric.CreateCustomMetric Sample.sdk Sample.sess "" "" "" ⟨0⟩ "" "" {} =
        (.ret (some ⟨"InvalidParameter: validation error(s) found."⟩),
          { calls := [.PutMetricData (metricInput "" "" "" ⟨0⟩ "" "")] }) ∧
      sentFrom Sample.sdk [] [.PutMetricData (metricInput "" "" "" ⟨0⟩ "" "")] = 0) ∧
    (GetQueueURL.GetQueueURL Sample.sdk Sample.sess none {} =
        (.ret ("", some ⟨"InvalidParameter: validation error(s) found."⟩),
          { calls := [.GetQueueUrl ⟨none⟩] }) ∧
      sentFrom Sample.sdk [] [.GetQueueUrl ⟨none⟩] = 0) ∧
    (DeadLetterQueue.ConfigureDeadLetterQueue Sample.sdk Sample.sess
          "arn:aws:sqs:us-west-2:123456789012:dlq1" (Sample.queueURL "q1") {} =
        (.ret (some ⟨"InternalFailure: status code: 500"⟩),
          { calls := [.SetQueueAttributes (redriveInput (Sample.queueURL "q1")
            (Sample.marshal (redrivePolicy "arn:aws:sqs:us-west-2:123456789012:dlq1")))] }) ∧
      sentFrom Sample.sdk [] [.SetQueueAttributes (redriveInput (Sample.queueURL "q1")
        (Sample.marshal (redrivePolicy "arn:aws:sqs:us-west-2:123456789012:dlq1")))] = 4) ∧
    GetQueueURL.GetQueueURL Sample.noQueueUrl Sample.sess (some "q1") {} =
      (.panic "invalid memory address or nil pointer dereference",
        { calls := [.GetQueueUrl ⟨some "q1"⟩] }) := by
  decide

/-! ## Unreadable configuration -/

/-- C8: with non-empty configured names `q` and `d`, when every remote call succeeds,
`CreateQueue` answering the URL `u1` for `q` and `u2` for `d`, and `getQueueArn u2` returns
`arn`, the dead-letter-queue `TestQueue` passes and issues exactly the calls
`CreateQueue q`, `CreateQueue d`, `SetQueueAttributes` on `u1` with the redrive policy of
target `arn` and `maxReceiveCount` 10 (encoded as `b`), `DeleteQueue u1`, `DeleteQueue u2`. -/
theorem deadLetterTest_call_sequence (env : Env) (w : World) (sess : Session)
    (text q d u1 u2 arn b : String)
    (hread : env.readFile "config.json" = .ok text)
    (hqd : env.unmarshalDeadLetter text {} = (⟨q, d⟩, none))
    (hq : q ≠ "") (hd : d ≠ "")
    (hs : env.newSession = .ok sess)
    (hc1 : env.CreateQueue w.calls (createQueueInput q) = .ok ⟨some u1⟩)
    (hc2 : env.CreateQueue (w.calls ++ [.CreateQueue (createQueueInput q)])
      (createQueueInput d) = .ok ⟨some u2⟩)
    (harn : DeadLetterQueue.getQueueArn u2 = .ok (arn, none))
    (hb : env.jsonMarshal (redrivePolicy arn) = .ok b)
    (hset : env.SetQueueAttributes
      (w.calls ++ [.CreateQueue (createQueueInput q), .CreateQueue (createQueueInput d)])
      (redriveInput u1 b) = .ok ())
    (hd1 : env.DeleteQueue
      (w.calls ++ [.CreateQueue (createQueueInput q), .CreateQueue (createQueueInput d),
        .SetQueueAttributes (redriveInput u1 b)]) ⟨some u1⟩ = .ok ())
    (hd2 : env.DeleteQueue
      (w.calls ++ [.CreateQueue (createQueueInput q), .CreateQueue (createQueueInput d),
        .SetQueueAttributes (redriveInput u1 b), .DeleteQueue ⟨some u1⟩]) ⟨some u2⟩ =
      .ok ()) :
    (DeadLetterQueue.TestQueue env w).1 = .ret () ∧
    (DeadLetterQueue.TestQueue env w).2.calls =
      w.calls ++ [.CreateQueue (createQueueInput q), .CreateQueue (createQueueInput d),
        .SetQueueAttributes (redriveInput u1 b), .DeleteQueue ⟨some u1⟩,
        .DeleteQueue ⟨some u2⟩] := by
  simp only [createQueueInput, redriveInput, redrivePolicy] at hc1 hc2 hb hset hd1 hd2 ⊢
  simp only [DeadLetterQueue.TestQueue, M.bind_run, DeadLetterQueue.populateConfiguration,
    DeadLetterQueue.configFileName, hread, hqd, uuidNew_run, hq, hd, if_false, hs,
    sessionMust_ok_run, DeadLetterQueue.createQueue, sqs.CreateQueue, remote_run, awsString,
    hc1, hc2, deref, liftP_ok_run, M.pure_run, tLog_run, harn,
    DeadLetterQueue.ConfigureDeadLetterQueue, hb, sqs.SetQueueAttributes,
    sqs.QueueAttributeNameRedrivePolicy, List.append_assoc, List.singleton_append,
    List.cons_append, List.nil_append, hset, DeadLetterQueue.deleteQueue, sqs.DeleteQueue, hd1,
    hd2, and_self]

theorem deadLetterTest_call_sequence_witness :
    (DeadLetterQueue.TestQueue Sample.env {}).1 = .ret () ∧
    (DeadLetterQueue.TestQueue Sample.env {}).2.calls =
      [] ++ [.CreateQueue (createQueueInput "q1"), .CreateQueue (createQueueInput "dlq1"),
        .SetQueueAttributes (redriveInput (Sample.queueURL "q1")
          (Sample.marshal (redrivePolicy "arn:aws:sqs:us-west-2:123456789012:dlq1"))),
        .DeleteQueue ⟨some (Sample.queueURL "q1")⟩,
        .DeleteQueue ⟨some (Sample.queueURL "dlq1")⟩] :=
  deadLetterTest_call_sequence Sample.env {} Sample.sess Sample.configText "q1" "dlq1"
    (Sample.queueURL "q1") (Sample.queueURL "dlq1") "arn:aws:sqs:us-west-2:123456789012:dlq1"
    (Sample.marshal (redrivePolicy "arn:aws:sqs:us-west-2:123456789012:dlq1"))
    rfl rfl (by decide) (by decide) rfl rfl rfl rfl rfl rfl rfl rfl

/-! ## The alarm that is enabled -/

/-- C9 (the code at the failing input): for the instance `web-1` with ID
`i-0123456789abcdef0` and the alarm name `Alarm70-a`, both calls succeeding, `enableAlarm`
puts the alarm `Alarm70-a` and then calls `EnableAlarmActions` with the alarm names
`[i-0123456789abcdef0]`, the instance ID, not the alarm it has just put; `disableAlarm`
names the alarm. -/
theorem enableAlarm_enables_instance_id :
    DeleteAlarm.enableAlarm Sample.env Sample.sess (some "web-1")
        (some "i-0123456789abcdef0") (some "Alarm70-a") {} =
      (.ret none,
        { calls := [
            .PutMetricAlarm
              { AlarmName := some "Alarm70-a"
                ComparisonOperator := some "GreaterThanThreshold"
                EvaluationPeriods := some 1
                MetricName := some "CPUUtilization"
                Namespace := some "AWS/EC2"
                Period := some 60
                Statistic := some "Average"
                Threshold := some ⟨0x4051800000000000⟩
                ActionsEnabled := some true
                AlarmDescription := some "Alarm when server CPU exceeds 70%"
                Unit := some "Seconds"
                AlarmActions := [some
                  "arn:aws:swf:us-west-2:web-1:action/actions/AWS_EC2.InstanceId.Reboot/1.0"]
                Dimensions := [{ Name := some "InstanceId",
                                 Value := some "i-0123456789abcdef0" }] },
            .EnableAlarmActions { AlarmNames := [some "i-0123456789abcdef0"] }] }) ∧
    (DeleteAlarm.disableAlarm Sample.env Sample.sess (some "Alarm70-a") {}).2.calls =
      [.DisableAlarmActions { AlarmNames := [some "Alarm70-a"] }] := by
  decide

/-! ## Suffixes of the generated names -/

/-- C10 (amended): when `QueueName` and `DlQueueName` are both blank, `populateConfiguration`
draws one token and builds both defaults from it, `myqueue-` and `mydlqueue-` followed by
that same token: the two suffixes are equal. Both names are non-empty and differ from one
another, and if different draws of the UUID generator give different tokens, the names built
from different draws differ. -/
theorem generated_defaults (env : Env) (w : World) (text : String)
    (hread : env.readFile "config.json" = .ok text)
    (hqd : env.unmarshalDeadLetter text {} = (⟨"", ""⟩, none)) :
    DeadLetterQueue.populateConfiguration env {} w =
        (.ret (⟨"myqueue-" ++ env.uuid w.uuids, "mydlqueue-" ++ env.uuid w.uuids⟩, none),
          { w with uuids := w.uuids + 1 }) ∧
    "myqueue-" ++ env.uuid w.uuids ≠ "" ∧
    "mydlqueue-" ++ env.uuid w.uuids ≠ "" ∧
    "myqueue-" ++ env.uuid w.uuids ≠ "mydlqueue-" ++ env.uuid w.uuids ∧
    (Function.Injective env.uuid → ∀ n, n ≠ w.uuids →
      "myqueue-" ++ env.uuid n ≠ "myqueue-" ++ env.uuid w.uuids ∧
      "mydlqueue-" ++ env.uuid n ≠ "mydlqueue-" ++ env.uuid w.uuids) := by
  refine ⟨?_, append_ne_empty _ _ (by decide), append_ne_empty _ _ (by decide),
    queue_names_differ _, ?_⟩
  · simp only [DeadLetterQueue.populateConfiguration, DeadLetterQueue.configFileName, hread,
      hqd, M.bind_run, uuidNew_run, M.pure_run, if_true]
  · intro hinj n hn
    exact ⟨fun h => hn (hinj (append_left_cancel _ _ _ h)),
      fun h => hn (hinj (append_left_cancel _ _ _ h))⟩

theorem generated_defaults_witness :
    ((Sample.queueEnv "" "").readFile "config.json" = .ok (Sample.configOf "" "") ∧
      (Sample.queueEnv "" "").unmarshalDeadLetter (Sample.configOf "" "") {} =
        (⟨"", ""⟩, none)) ∧
    DeadLetterQueue.populateConfiguration (Sample.queueEnv "" "") {} {} =
      (.ret (⟨"myqueue-" ++ (Sample.queueEnv "" "").uuid 0,
        "mydlqueue-" ++ (Sample.queueEnv "" "").uuid 0⟩, none), { uuids := 0 + 1 }) :=
  ⟨⟨rfl, rfl⟩,
    (generated_defaults (Sample.queueEnv "" "") {} (Sample.configOf "" "") rfl rfl).1⟩

/-- C10 (as stated, refuted): the UUID generator gives different tokens at different draws,
both names are blank, and the suffix after `myqueue-` is the suffix after `mydlqueue-`. -/
theorem both_defaults_share_the_suffix :
    Function.Injective (Sample.queueEnv "" "").uuid ∧
    (Sample.queueEnv "" "").unmarshalDeadLetter (Sample.configOf "" "") {} =
      (⟨"", ""⟩, none) ∧
    (DeadLetterQueue.populateConfiguration (Sample.queueEnv "" "") {} {}).1 =
      .ret (⟨"myqueue-" ++ "a", "mydlqueue-" ++ "a"⟩, none) :=
  ⟨Sample.uuid_injective, rfl, rfl⟩

/-! ## What the programs print on an error -/

/-- C11 (the code at the failing input): with `PutMetricData` refused with the error
`AccessDenied`, `main` of `CreateCustomMetric.go` returns normally having written one empty
line to standard output, not the text of the error; `main` of `DeadLetterQueue.go` and of
`GetQueueURL.go`, with their call failing, write a heading and then the text of the error,
no success message, and return normally. -/
theorem createCustomMetric_main_prints_empty_line :
    CreateCustomMetric.main Sample.metricFails "Site" "PageViews" "Count"
        ⟨0x3FF0000000000000⟩ "PageURL" "index.html" {} =
      (.ret (),
        { calls := [.PutMetricData
            (metricInput "Site" "PageViews" "Count" ⟨0x3FF0000000000000⟩ "PageURL"
              "index.html")]
          stdout := [""] }) ∧
    DeadLetterQueue.main Sample.configureFails (Sample.queueURL "q1")
        "arn:aws:sqs:us-west-2:123456789012:dlq1" {} =
      (.ret (),
        { calls := [.SetQueueAttributes (redriveInput (Sample.queueURL "q1")
            (Sample.marshal (redrivePolicy "arn:aws:sqs:us-west-2:123456789012:dlq1")))]
          stdout := ["Got an error creating the dead-letter queue:", "AccessDenied"] }) ∧
    GetQueueURL.main Sample.lookupFails "q1" {} =
      (.ret (),
        { calls := [.GetQueueUrl ⟨some "q1"⟩]
          stdout := ["Got an error getting the queue URL:",
            "AWS.SimpleQueueService.NonExistentQueue"] }) := by
  decide

/-! ## The instance the alarm test picks -/

/-- C12 (the code at the failing input): with a blank configuration and `DescribeInstances`
answering four instances of which `i-0c`, named `web-2`, is the first with both a name and
an ID, `getEc2Info` returns the ID first and the name second, and `populateConfig` stores
the ID `i-0c` in `InstanceName` and the name `web-2` in `InstanceID`. When no instance has
both, `populateConfig` returns the error `No EC2 instance found with name and ID`. -/
theorem populateConfig_stores_id_as_name :
    (DeleteAlarm.getEc2Info Sample.fleet Sample.sess {}).1 = .ret ("i-0c", "web-2", none) ∧
    (DeleteAlarm.populateConfig Sample.fleet Sample.sess {} {}).1 =
      .ret ({ InstanceName := "i-0c", InstanceID := "web-2", AlarmName := "Alarm70-a" },
        none) ∧
    (DeleteAlarm.populateConfig Sample.unnamedFleet Sample.sess {} {}).1 =
      .ret ({ InstanceName := "", InstanceID := "", AlarmName := "" },
        some ⟨"No EC2 instance found with name and ID"⟩) := by
  decide

/-! ## When the ARN derivation is in bounds -/

theorem splitChars_cons_of_ne (sep c : Char) (cs seg : List Char) (segs : List (List Char))
    (hc : c ≠ sep) (hs : splitChars sep cs = seg :: segs) :
    splitChars sep (c :: cs) = (c :: seg) :: segs := by
  simp [splitChars, hc, hs]

theorem splitChars_length (sep : Char) (s : List Char) :
    (splitChars sep s).length = s.count sep + 1 := by
  induction s with
  | nil => rfl
  | cons c cs ih =>
    by_cases hc : c = sep
    · subst hc
      simp [splitChars, ih]
    · have hne := splitChars_ne_nil sep cs
      have hcount : (c :: cs).count sep = cs.count sep := by
        simp [List.count_cons, hc]
      rw [hcount, ← ih]
      cases hs : splitChars sep cs with
      | nil => exact absurd hs hne
      | cons seg segs => rw [splitChars_cons_of_ne sep c cs seg segs hc hs]; rfl

theorem exists_first_sep (sep : Char) (s : List Char) (h : sep ∈ s) :
    ∃ a b, sep ∉ a ∧ s = a ++ sep :: b := by
  induction s with
  | nil => simp at h
  | cons c cs ih =>
    by_cases hc : c = sep
    · exact ⟨[], cs, by simp, by simp [hc]⟩
    · have hcs : sep ∈ cs := by
        rcases List.mem_cons.mp h with h1 | h1
        · exact absurd h1.symm hc
        · exact h1
      obtain ⟨a, b, ha, hb⟩ := ih hcs
      refine ⟨c :: a, b, ?_, by simp [hb]⟩
      intro hm
      rcases List.mem_cons.mp hm with h1 | h1
      · exact hc h1.symm
      · exact ha h1

theorem splitChars_append (sep : Char) (a b : List Char) :
    splitChars sep (a ++ sep :: b) = splitChars sep a ++ splitChars sep b := by
  induction a with
  | nil => simp [splitChars]
  | cons c cs ih =>
    by_cases hc : c = sep
    · simp [splitChars, hc, ih]
    · have hne := splitChars_ne_nil sep cs
      cases hs : splitChars sep cs with
      | nil => exact absurd hs hne
      | cons seg segs =>
        rw [List.cons_append, splitChars_cons_of_ne sep c cs seg segs hc hs,
          splitChars_cons_of_ne sep c (cs ++ sep :: b) seg (segs ++ splitChars sep b) hc
            (by rw [ih, hs]; rfl)]
        rfl

theorem split_length (u : String) (sep : Char) :
    (strings.Split u sep).length = u.data.count sep + 1 := by
  simp [strings.Split, splitChars_length]

/-- The function `getQueueArn` by the shape of its two splits: it returns, with a nil error,
exactly when the first has five segments and the second two, and otherwise an index is out
of range. -/
theorem getQueueArn_by_lengths (u : String) :
    ((∃ arn, DeadLetterQueue.getQueueArn u = .ok (arn, none)) ∧
      ∃ host, (strings.Split u '/')[2]? = some host ∧ 5 ≤ (strings.Split u '/').length ∧
        2 ≤ (strings.Split host '.').length) ∨
    (DeadLetterQueue.getQueueArn u = .error "index out of range" ∧
      ¬ ∃ host, (strings.Split u '/')[2]? = some host ∧ 5 ≤ (strings.Split u '/').length ∧
        2 ≤ (strings.Split host '.').length) := by
  unfold DeadLetterQueue.getQueueArn
  rcases hp : strings.Split u '/' with
    _ | ⟨p0, _ | ⟨p1, _ | ⟨p2, _ | ⟨p3, _ | ⟨p4, rest⟩⟩⟩⟩⟩
  · right; simp [index, bind, Except.bind]
  · right; simp [index, bind, Except.bind]
  · right; simp [index, bind, Except.bind]
  · right
    rcases hs : strings.Split p2 '.' with _ | ⟨s0, _ | ⟨s1, srest⟩⟩ <;>
      simp [index, bind, Except.bind, hs]
  · right
    rcases hs : strings.Split p2 '.' with _ | ⟨s0, _ | ⟨s1, srest⟩⟩ <;>
      simp [index, bind, Except.bind, hs]
  · rcases hs : strings.Split p2 '.' with _ | ⟨s0, _ | ⟨s1, srest⟩⟩
    · right; simp [index, bind, Except.bind, hs]
    · right; simp [index, bind, Except.bind, hs]
    · left; simp [index, bind, Except.bind, hs, pure, Except.pure]

theorem count_after_first (sep : Char) (a b : List Char) (h : sep ∉ a) :
    (a ++ sep :: b).count sep = b.count sep + 1 := by
  simp [List.count_append, List.count_eq_zero_of_not_mem h]

theorem exists_three_seps (sep : Char) (s : List Char) (h : 3 ≤ s.count sep) :
    ∃ a b c rest, sep ∉ a ∧ sep ∉ b ∧ sep ∉ c ∧
      s = a ++ sep :: (b ++ sep :: (c ++ sep :: rest)) := by
  obtain ⟨a, r1, ha, h1⟩ := exists_first_sep sep s (List.one_le_count_iff.mp (by omega))
  subst h1
  rw [count_after_first sep a r1 ha] at h
  obtain ⟨b, r2, hb, h2⟩ := exists_first_sep sep r1 (List.one_le_count_iff.mp (by omega))
  subst h2
  rw [count_after_first sep b r2 hb] at h
  obtain ⟨c, r3, hc, h3⟩ := exists_first_sep sep r2 (List.one_le_count_iff.mp (by omega))
  subst h3
  exact ⟨a, b, c, r3, ha, hb, hc, rfl⟩

theorem splitChars_three_seps (sep : Char) (a b c rest : List Char)
    (ha : sep ∉ a) (hb : sep ∉ b) (hc : sep ∉ c) :
    splitChars sep (a ++ sep :: (b ++ sep :: (c ++ sep :: rest))) =
      a :: b :: c :: splitChars sep rest := by
  rw [splitChars_append_sep sep _ _ ha, splitChars_append_sep sep _ _ hb,
    splitChars_append_sep sep _ _ hc]

/-- The two splits of `getQueueArn` are long enough exactly when the URL has four `/` and a
`.` in its third segment. -/
theorem lengths_iff_shape (u : String) :
    (∃ host, (strings.Split u '/')[2]? = some host ∧ 5 ≤ (strings.Split u '/').length ∧
        2 ≤ (strings.Split host '.').length) ↔
      hasArnShape u := by
  unfold hasArnShape
  constructor
  · rintro ⟨host, h2, h5, hdot⟩
    rw [split_length] at h5 hdot
    have h4 : 4 ≤ u.data.count '/' := by omega
    obtain ⟨a, b, h, rest, ha, hb, hh, hu⟩ := exists_three_seps '/' u.data (by omega)
    refine ⟨h4, a, b, h, rest, ha, hb, hh, hu, ?_⟩
    have hparts : strings.Split u '/' =
        String.mk a :: String.mk b :: String.mk h :: (splitChars '/' rest).map String.mk := by
      simp [strings.Split, hu, splitChars_three_seps '/' a b h rest ha hb hh]
    rw [hparts] at h2
    simp only [List.getElem?_cons_succ, List.getElem?_cons_zero, Option.some.injEq] at h2
    subst h2
    have hd : 1 ≤ h.count '.' := by
      simp only [] at hdot
      omega
    exact List.one_le_count_iff.mp hd
  · rintro ⟨h4, a, b, h, rest, ha, hb, hh, hu, hdot⟩
    have hparts : strings.Split u '/' =
        String.mk a :: String.mk b :: String.mk h :: (splitChars '/' rest).map String.mk := by
      simp [strings.Split, hu, splitChars_three_seps '/' a b h rest ha hb hh]
    refine ⟨String.mk h, by rw [hparts]; simp, by rw [split_length]; omega, ?_⟩
    rw [split_length]
    have := List.one_le_count_iff.mpr hdot
    simpa using this

theorem index_take {α : Type} (xs : List α) (n i : Nat) (h : i < n) :
    index (xs.take n) i = index xs i := by
  simp [index, List.getElem?_take_of_lt h]

/-- The function `getQueueArn` reads the first five segments only. -/
theorem getQueueArn_of_take_five (u v : String)
    (h : (strings.Split u '/').take 5 = (strings.Split v '/').take 5) :
    DeadLetterQueue.getQueueArn u = DeadLetterQueue.getQueueArn v := by
  have e2 : index (strings.Split u '/') 2 = index (strings.Split v '/') 2 := by
    rw [← index_take _ 5 2 (by omega), h, index_take _ 5 2 (by omega)]
  have e3 : index (strings.Split u '/') 3 = index (strings.Split v '/') 3 := by
    rw [← index_take _ 5 3 (by omega), h, index_take _ 5 3 (by omega)]
  have e4 : index (strings.Split u '/') 4 = index (strings.Split v '/') 4 := by
    rw [← index_take _ 5 4 (by omega), h, index_take _ 5 4 (by omega)]
  simp only [DeadLetterQueue.getQueueArn, e2, e3, e4]

theorem split_append (u extra : String) :
    strings.Split (u ++ "/" ++ extra) '/' = strings.Split u '/' ++ strings.Split extra '/' := by
  have h : ("/" : String).data = ['/'] := rfl
  simp [strings.Split, String.data_append, h, splitChars_append]

/-- C13: `getQueueArn` returns a value, always with a nil error, exactly for the strings that
have at least four `/` and a `.` in the segment between the second and the third; for every
other string, such as the empty one or `https://sqs`, an index is out of range. It reads the
first five segments only: what follows them does not change the result. -/
theorem getQueueArn_in_bounds_iff :
    (∀ u : String,
      ((∃ arn, DeadLetterQueue.getQueueArn u = .ok (arn, none)) ↔ hasArnShape u) ∧
      (¬ hasArnShape u → DeadLetterQueue.getQueueArn u = .error "index out of range") ∧
      (∀ arn e, DeadLetterQueue.getQueueArn u = .ok (arn, e) → e = none) ∧
      (∀ v, (strings.Split u '/').take 5 = (strings.Split v '/').take 5 →
        DeadLetterQueue.getQueueArn u = DeadLetterQueue.getQueueArn v) ∧
      (∀ extra, 4 ≤ u.data.count '/' →
        DeadLetterQueue.getQueueArn (u ++ "/" ++ extra) = DeadLetterQueue.getQueueArn u)) ∧
    DeadLetterQueue.getQueueArn "" = .error "index out of range" ∧
    DeadLetterQueue.getQueueArn "https://sqs" = .error "index out of range" := by
  refine ⟨fun u => ⟨?_, ?_, ?_, ?_, ?_⟩, rfl, rfl⟩
  · rw [← lengths_iff_shape]
    rcases getQueueArn_by_lengths u with ⟨hok, hlen⟩ | ⟨herr, hlen⟩
    · exact ⟨fun _ => hlen, fun _ => hok⟩
    · constructor
      · rintro ⟨arn, harn⟩
        rw [herr] at harn
        cases harn
      · intro h
        exact absurd h hlen
  · intro hshape
    rw [← lengths_iff_shape] at hshape
    rcases getQueueArn_by_lengths u with ⟨_, hlen⟩ | ⟨herr, _⟩
    · exact absurd hlen hshape
    · exact herr
  · intro arn e h
    rcases getQueueArn_by_lengths u with ⟨⟨arn2, hok⟩, _⟩ | ⟨herr, _⟩
    · rw [hok] at h
      simp only [Except.ok.injEq, Prod.mk.injEq] at h
      exact h.2.symm
    · rw [herr] at h
      cases h
  · intro v h
    exact getQueueArn_of_take_five u v h
  · intro extra h4
    apply getQueueArn_of_take_five
    rw [split_append, List.take_append_of_le_length]
    rw [split_length]
    omega
